import Mathlib

/-!
# ngraph-bridge: tensor-role classification and the prefetch shared resource

A shallow embedding of

* `NGraphTensorManager::Initialize` (`ngraph_bridge/ngraph_tensor_manager.cc`), the
  construction-time computation of the role sets of an encapsulated node, and
* `NGraphPrefetchSharedResouce` (`ngraph_bridge/ngraph_prefetch_shared_data.h`), the resource
  shared by the encapsulate op and the prefetcher.

C++ `int` values are embedded as `Int`.  Every `int` that `Initialize` computes is either a
loop index below an `int` bound, a position inside a vector of at most that many elements, or
a value copied unchanged, so none of its arithmetic wraps.  The only other arithmetic is the
increment of the skip count: it is reduced to the range of a 32-bit `int` (`wrapInt32`), the
two's-complement result of an increment whose overflow C++ leaves undefined.
`std::vector` is embedded as `List`, `push_back` as appending at the end.  A thrown
`std::runtime_error` is `Except.error` carrying the message.  A call that suspends its caller
(a wait on a condition variable whose predicate does not hold) is embedded as `none`.
-/

namespace NgraphBridge

/-! ## Collaborators that are not part of the sources -/

/-- Modelled from the spec: the catalog collaborator (`ngraph_catalog.h` is not among the
sources).  Section 6 lists the queries consumed from it: `existsVariableInput`,
`existsOutputVariableInfo` and `outputNeedsCopy` answer a boolean per
(graph id, node name, index), and the prefetch-eligible index set is registered per
(graph id, node name) or not at all.  The registered set is kept as the sequence in which the
catalog's `unordered_set<int>` enumerates its members. -/
structure NGraphCatalog where
  ExistsInInputVariableSharedNameMap : Int → String → Int → Bool
  ExistsInEncapOutputInfoMap : Int → String → Int → Bool
  EncapOutputIndexNeedsCopy : Int → String → Int → Bool
  prefetched_input_index_map_ : Int → String → Option (List Int)

/-- Modelled from the spec: `existsPrefetchIndexSet(graphId, nodeName)`, whether a
prefetch-eligible index set is registered for the node. -/
def NGraphCatalog.ExistsInPrefetchedInputIndexMap (cat : NGraphCatalog) (graphid : Int)
    (node_name : String) : Bool :=
  (cat.prefetched_input_index_map_ graphid node_name).isSome

/-- Modelled from the spec: `getPrefetchIndexSet(graphId, nodeName)`, the registered
prefetch-eligible index set of the node. -/
def NGraphCatalog.GetIndexesFromPrefetchedInputIndexMap (cat : NGraphCatalog) (graphid : Int)
    (node_name : String) : List Int :=
  (cat.prefetched_input_index_map_ graphid node_name).getD []

/-- Modelled from the spec: the catalog after `ClearCatalog`, in which nothing is registered:
every query answers false and no node has a prefetch-eligible index set. -/
def NGraphCatalog.empty : NGraphCatalog where
  ExistsInInputVariableSharedNameMap := fun _ _ _ => false
  ExistsInEncapOutputInfoMap := fun _ _ _ => false
  EncapOutputIndexNeedsCopy := fun _ _ _ => false
  prefetched_input_index_map_ := fun _ _ => none

/-- The values taken by `index` in `for (int index = 0; index < n; index++)`, in order. -/
def indexRange (n : Int) : List Int :=
  (List.range n.toNat).map Int.ofNat

/-- Modelled from the spec: `FindComplement(max_element, element_set)` of `ngraph_utils`
(not among the sources).  Section 4.1: given a bound `n` and an index set `subset`, whose
values may include out-of-range or negative entries, return the ascending sequence of
integers in `[0, n)` not present in `subset`; pure and total.  The candidates `0, 1, ..,
n - 1` are visited in order and a candidate is kept when a search of `subset` does not find
it. -/
def FindComplement (max_element : Int) (element_set : List Int) : List Int :=
  (indexRange max_element).foldl
    (fun complement candidate =>
      if element_set.indexOf candidate = element_set.length then complement ++ [candidate]
      else complement)
    []

/-! ## `NGraphTensorManager` -/

/-- The data members of `NGraphTensorManager` that `ngraph_tensor_manager.cc` initialises and
fills.  The index vectors are default-constructed, hence empty, when `Initialize` starts. -/
structure NGraphTensorManager where
  m_ng_encap_node_name : String
  m_ng_encap_cluster_id : Int
  m_ng_encap_graph_id : Int
  m_number_of_inputs : Int
  m_number_of_outputs : Int
  m_input_indexes_from_variables : List Int := []
  m_output_indexes_assigning_variable : List Int := []
  m_output_indexes_that_need_copy : List Int := []
  m_pipelined_input_indexes : List Int := []
  m_pipelined_output_indexes : List Int := []
  m_prefetched_input_indexes : List Int := []
  m_pipelined_input_indexes_prefetched : List Int := []
  deriving DecidableEq, Repr

namespace NGraphTensorManager

/-- Body of the loop of lines 45-50: record `index` when the catalog marks the input as fed
by a variable. -/
def inputVariableStep (cat : NGraphCatalog) (self : NGraphTensorManager) (index : Int) :
    NGraphTensorManager :=
  if cat.ExistsInInputVariableSharedNameMap self.m_ng_encap_graph_id
      self.m_ng_encap_node_name index then
    { self with
      m_input_indexes_from_variables := self.m_input_indexes_from_variables ++ [index] }
  else self

/-- Body of the loop of lines 51-60: record `index` when the output assigns a variable, and,
independently, when the output needs a copy. -/
def outputVariableStep (cat : NGraphCatalog) (self : NGraphTensorManager) (index : Int) :
    NGraphTensorManager :=
  let self1 :=
    if cat.ExistsInEncapOutputInfoMap self.m_ng_encap_graph_id
        self.m_ng_encap_node_name index then
      { self with
        m_output_indexes_assigning_variable :=
          self.m_output_indexes_assigning_variable ++ [index] }
    else self
  if cat.EncapOutputIndexNeedsCopy self1.m_ng_encap_graph_id
      self1.m_ng_encap_node_name index then
    { self1 with
      m_output_indexes_that_need_copy := self1.m_output_indexes_that_need_copy ++ [index] }
  else self1

/-- Lines 44-61: the two catalog loops, compiled in only when
`NGRAPH_TF_ENABLE_VARIABLES_AND_OPTIMIZERS` is defined (`variablesEnabled`). -/
def collectVariables (variablesEnabled : Bool) (cat : NGraphCatalog)
    (self : NGraphTensorManager) : NGraphTensorManager :=
  if variablesEnabled then
    let self1 := (indexRange self.m_number_of_inputs).foldl (inputVariableStep cat) self
    (indexRange self1.m_number_of_outputs).foldl (outputVariableStep cat) self1
  else self

/-- Lines 62-65: the pipelined indexes are the complements of the variable indexes. -/
def computePipelined (self : NGraphTensorManager) : NGraphTensorManager :=
  let self1 :=
    { self with
      m_pipelined_input_indexes :=
        FindComplement self.m_number_of_inputs self.m_input_indexes_from_variables }
  { self1 with
    m_pipelined_output_indexes :=
      FindComplement self1.m_number_of_outputs self1.m_output_indexes_assigning_variable }

/-- Lines 67-77: when a prefetch-eligible index set is registered for the node, its members
are inserted at the front of `m_prefetched_input_indexes` and the vector is sorted
ascending. -/
def collectPrefetched (cat : NGraphCatalog) (self : NGraphTensorManager) :
    NGraphTensorManager :=
  if cat.ExistsInPrefetchedInputIndexMap self.m_ng_encap_graph_id
      self.m_ng_encap_node_name then
    let prefetch_indexes :=
      cat.GetIndexesFromPrefetchedInputIndexMap self.m_ng_encap_graph_id
        self.m_ng_encap_node_name
    { self with
      m_prefetched_input_indexes :=
        List.insertionSort (fun a b => a ≤ b)
          (prefetch_indexes ++ self.m_prefetched_input_indexes) }
  else self

/-- Body of the loop of lines 80-90: `std::find` of `pref_index` in the pipelined input
indexes; reaching `end()` throws, otherwise the distance from `begin()` is recorded. -/
def prefetchPositionStep (self : NGraphTensorManager) (pref_index : Int) :
    Except String NGraphTensorManager :=
  let position := self.m_pipelined_input_indexes.indexOf pref_index
  if position = self.m_pipelined_input_indexes.length then
    Except.error
      ("Prefetched input index " ++ toString pref_index ++ " not found in pipelined inputs.")
  else
    Except.ok
      { self with
        m_pipelined_input_indexes_prefetched :=
          self.m_pipelined_input_indexes_prefetched ++ [Int.ofNat position] }

/-- The loop of lines 80-90 over the prefetched input indexes still to be visited; the first
throw ends it. -/
def locatePrefetched : List Int → NGraphTensorManager → Except String NGraphTensorManager
  | [], self => Except.ok self
  | pref_index :: rest, self =>
    match prefetchPositionStep self pref_index with
    | Except.error msg => Except.error msg
    | Except.ok self1 => locatePrefetched rest self1

/-- The method `NGraphTensorManager::Initialize` (lines 43-91). -/
def Initialize (variablesEnabled : Bool) (cat : NGraphCatalog) (self : NGraphTensorManager) :
    Except String NGraphTensorManager :=
  let self1 := collectVariables variablesEnabled cat self
  let self2 := computePipelined self1
  let self3 := collectPrefetched cat self2
  locatePrefetched self3.m_prefetched_input_indexes self3

/-- The member initialisers of the constructor (lines 35-39); the index vectors are empty. -/
def init (ng_encap_node_name : String)
    (ng_encap_cluster_id ng_encap_graph_id number_of_inputs number_of_outputs : Int) :
    NGraphTensorManager :=
  { m_ng_encap_node_name := ng_encap_node_name
    m_ng_encap_cluster_id := ng_encap_cluster_id
    m_ng_encap_graph_id := ng_encap_graph_id
    m_number_of_inputs := number_of_inputs
    m_number_of_outputs := number_of_outputs }

/-- The constructor `NGraphTensorManager::NGraphTensorManager` (lines 30-41): the member
initialisers followed by `Initialize()`.  The catalog is the process-wide catalog as it
stands when the constructor runs. -/
def create (variablesEnabled : Bool) (cat : NGraphCatalog) (ng_encap_node_name : String)
    (ng_encap_cluster_id ng_encap_graph_id number_of_inputs number_of_outputs : Int) :
    Except String NGraphTensorManager :=
  Initialize variablesEnabled cat
    (init ng_encap_node_name ng_encap_cluster_id ng_encap_graph_id number_of_inputs
      number_of_outputs)

/-! ### Closed forms used by the proofs -/

/-- The inputs that `Initialize` records as fed by a variable, in closed form. -/
def variableInputs (variablesEnabled : Bool) (cat : NGraphCatalog) (node_name : String)
    (graph_id number_of_inputs : Int) : List Int :=
  if variablesEnabled then
    (indexRange number_of_inputs).filter
      (fun i => cat.ExistsInInputVariableSharedNameMap graph_id node_name i)
  else []

/-- The outputs that `Initialize` records as assigning a variable, in closed form. -/
def variableOutputs (variablesEnabled : Bool) (cat : NGraphCatalog) (node_name : String)
    (graph_id number_of_outputs : Int) : List Int :=
  if variablesEnabled then
    (indexRange number_of_outputs).filter
      (fun i => cat.ExistsInEncapOutputInfoMap graph_id node_name i)
  else []

/-- The outputs that `Initialize` records as needing a copy, in closed form. -/
def copyOutputs (variablesEnabled : Bool) (cat : NGraphCatalog) (node_name : String)
    (graph_id number_of_outputs : Int) : List Int :=
  if variablesEnabled then
    (indexRange number_of_outputs).filter
      (fun i => cat.EncapOutputIndexNeedsCopy graph_id node_name i)
  else []

/-- The object on which the loop of lines 80-90 starts, in closed form. -/
def beforeLocate (variablesEnabled : Bool) (cat : NGraphCatalog) (node_name : String)
    (cluster_id graph_id number_of_inputs number_of_outputs : Int) : NGraphTensorManager :=
  { m_ng_encap_node_name := node_name
    m_ng_encap_cluster_id := cluster_id
    m_ng_encap_graph_id := graph_id
    m_number_of_inputs := number_of_inputs
    m_number_of_outputs := number_of_outputs
    m_input_indexes_from_variables :=
      variableInputs variablesEnabled cat node_name graph_id number_of_inputs
    m_output_indexes_assigning_variable :=
      variableOutputs variablesEnabled cat node_name graph_id number_of_outputs
    m_output_indexes_that_need_copy :=
      copyOutputs variablesEnabled cat node_name graph_id number_of_outputs
    m_pipelined_input_indexes :=
      FindComplement number_of_inputs
        (variableInputs variablesEnabled cat node_name graph_id number_of_inputs)
    m_pipelined_output_indexes :=
      FindComplement number_of_outputs
        (variableOutputs variablesEnabled cat node_name graph_id number_of_outputs)
    m_prefetched_input_indexes :=
      List.insertionSort (fun a b => a ≤ b)
        (cat.GetIndexesFromPrefetchedInputIndexMap graph_id node_name) }

/-- The pipelined input indexes as they stand after line 65, before the prefetched input
indexes are looked up in them. -/
def pipelinedInputIndexesOf (variablesEnabled : Bool) (cat : NGraphCatalog)
    (node_name : String) (cluster_id graph_id number_of_inputs number_of_outputs : Int) :
    List Int :=
  (computePipelined (collectVariables variablesEnabled cat
    (init node_name cluster_id graph_id number_of_inputs
      number_of_outputs))).m_pipelined_input_indexes

end NGraphTensorManager

/-! ## `NGraphPrefetchSharedResouce` -/

/-- Modelled from the spec: `ThreadSafeQueue` (`thread_safe_queue.h` is not among the
sources), the handoff queue of section 4.3, holding the queued items head first. -/
structure ThreadSafeQueue (α : Type) where
  m_queue : List α := []
  deriving DecidableEq, Repr

namespace ThreadSafeQueue

/-- Modelled from the spec: `push(bundle)` inserts at the tail, never blocks and returns
immediately. -/
def Add {α : Type} (q : ThreadSafeQueue α) (item : α) : ThreadSafeQueue α :=
  { m_queue := q.m_queue ++ [item] }

/-- Modelled from the spec: `getNextAvailable()` blocks the caller until at least one bundle
is present, then removes and returns the head bundle.  On an empty queue the caller stays
blocked (`none`). -/
def GetNextAvailable {α : Type} (q : ThreadSafeQueue α) : Option (α × ThreadSafeQueue α) :=
  match q.m_queue with
  | [] => none
  | next :: rest => some (next, { m_queue := rest })

end ThreadSafeQueue

/-- The value a 32-bit `int` holds when the mathematical result is `x`: the representative
of `x` modulo `2^32` in `[-2^31, 2^31)`. -/
def wrapInt32 (x : Int) : Int :=
  (x + 2147483648) % 4294967296 - 2147483648

/-- The struct `NGraphPrefetchSharedResouce::InputTensorBundle`; a tensor handle
(`shared_ptr<ng::runtime::Tensor>`) is identified by a number. -/
structure InputTensorBundle where
  Id : Int
  Inputs : List Nat
  deriving DecidableEq, Repr

/-- The data members of `NGraphPrefetchSharedResouce` (lines 119-154); the mutex and the
condition variable carry no data. -/
structure NGraphPrefetchSharedResouce where
  m_ng_enc_op_name : String
  m_backend_name : String
  m_graph_id : Int
  m_cluster_id : Int
  m_tf_2_ng : ThreadSafeQueue InputTensorBundle := {}
  m_ng_2_tf : ThreadSafeQueue InputTensorBundle := {}
  m_prefetch_buffer_depth : Int := -1
  m_skip_count : Int := 0
  deriving DecidableEq, Repr

namespace NGraphPrefetchSharedResouce

/-- The constructor (lines 41-47): both queues empty, depth `-1`, skip count `0`. -/
def create (ng_enc_op_name backend_name : String) (cluster_id graph_id : Int) :
    NGraphPrefetchSharedResouce :=
  { m_ng_enc_op_name := ng_enc_op_name
    m_backend_name := backend_name
    m_graph_id := graph_id
    m_cluster_id := cluster_id }

/-- Lines 71-73. -/
def AddNextInputTensorBundleForDeviceTransfer (self : NGraphPrefetchSharedResouce)
    (next : InputTensorBundle) : NGraphPrefetchSharedResouce :=
  { self with m_tf_2_ng := self.m_tf_2_ng.Add next }

/-- Lines 77-79; `none` while the caller is blocked on the empty queue. -/
def GetNextInputTensorBundleForDeviceTransfer (self : NGraphPrefetchSharedResouce) :
    Option (InputTensorBundle × NGraphPrefetchSharedResouce) :=
  match self.m_tf_2_ng.GetNextAvailable with
  | none => none
  | some (next, q) => some (next, { self with m_tf_2_ng := q })

/-- Lines 84-86. -/
def AddNextInputTensorBundleReadyForDeviceExecution (self : NGraphPrefetchSharedResouce)
    (next : InputTensorBundle) : NGraphPrefetchSharedResouce :=
  { self with m_ng_2_tf := self.m_ng_2_tf.Add next }

/-- Lines 90-92; `none` while the caller is blocked on the empty queue. -/
def GetNextInputTensorBundleReadyForDeviceExecution (self : NGraphPrefetchSharedResouce) :
    Option (InputTensorBundle × NGraphPrefetchSharedResouce) :=
  match self.m_ng_2_tf.GetNextAvailable with
  | none => none
  | some (next, q) => some (next, { self with m_ng_2_tf := q })

/-- Lines 94-102: the depth is stored unconditionally (the assertion of the comment is not
in the code) and the waiters are signalled. -/
def SetBufferDepth (self : NGraphPrefetchSharedResouce) (depth : Int) :
    NGraphPrefetchSharedResouce :=
  { self with m_prefetch_buffer_depth := depth }

/-- Lines 103-113: while the stored depth is `-1` the caller waits on the condition variable
(`none`); otherwise the stored depth is returned. -/
def GetBufferDepth (self : NGraphPrefetchSharedResouce) : Option Int :=
  if self.m_prefetch_buffer_depth = -1 then none
  else some self.m_prefetch_buffer_depth

/-- Line 115: `m_skip_count++` on an `int`. -/
def IncrSkipCount (self : NGraphPrefetchSharedResouce) : NGraphPrefetchSharedResouce :=
  { self with m_skip_count := wrapInt32 (self.m_skip_count + 1) }

/-- Line 116. -/
def GetSkipCount (self : NGraphPrefetchSharedResouce) : Int :=
  self.m_skip_count

/-- The bundles pushed one after the other, in list order, with the push `add`. -/
def pushAll (add : NGraphPrefetchSharedResouce → InputTensorBundle → NGraphPrefetchSharedResouce)
    (self : NGraphPrefetchSharedResouce) (bundles : List InputTensorBundle) :
    NGraphPrefetchSharedResouce :=
  bundles.foldl add self

/-- The results of `k` consecutive calls of the pop `get`, in call order, with the resource
they leave; `none` when one of the calls blocks. -/
def popMany
    (get : NGraphPrefetchSharedResouce → Option (InputTensorBundle × NGraphPrefetchSharedResouce)) :
    Nat → NGraphPrefetchSharedResouce →
      Option (List InputTensorBundle × NGraphPrefetchSharedResouce)
  | 0, self => some ([], self)
  | k + 1, self =>
    match get self with
    | none => none
    | some (next, self1) =>
      match popMany get k self1 with
      | none => none
      | some (rest, self2) => some (next :: rest, self2)

/-- A call of one of the eight operations of the resource (lines 71-116), with its
argument. -/
inductive Call where
  | AddNextInputTensorBundleForDeviceTransfer (next : InputTensorBundle)
  | GetNextInputTensorBundleForDeviceTransfer
  | AddNextInputTensorBundleReadyForDeviceExecution (next : InputTensorBundle)
  | GetNextInputTensorBundleReadyForDeviceExecution
  | SetBufferDepth (depth : Int)
  | GetBufferDepth
  | IncrSkipCount
  | GetSkipCount
  deriving DecidableEq, Repr

/-- What a call that has returned gave back to its caller. -/
inductive Returned where
  | void
  | bundle (next : InputTensorBundle)
  | int (value : Int)
  deriving DecidableEq, Repr

/-- One call that runs to its return on the resource `self`: what it returns and the resource
it leaves; `none` when the call cannot return on `self` because its caller is blocked. -/
def call (self : NGraphPrefetchSharedResouce) :
    Call → Option (Returned × NGraphPrefetchSharedResouce)
  | Call.AddNextInputTensorBundleForDeviceTransfer next =>
    some (Returned.void, self.AddNextInputTensorBundleForDeviceTransfer next)
  | Call.GetNextInputTensorBundleForDeviceTransfer =>
    match self.GetNextInputTensorBundleForDeviceTransfer with
    | none => none
    | some (next, self1) => some (Returned.bundle next, self1)
  | Call.AddNextInputTensorBundleReadyForDeviceExecution next =>
    some (Returned.void, self.AddNextInputTensorBundleReadyForDeviceExecution next)
  | Call.GetNextInputTensorBundleReadyForDeviceExecution =>
    match self.GetNextInputTensorBundleReadyForDeviceExecution with
    | none => none
    | some (next, self1) => some (Returned.bundle next, self1)
  | Call.SetBufferDepth depth => some (Returned.void, self.SetBufferDepth depth)
  | Call.GetBufferDepth =>
    match self.GetBufferDepth with
    | none => none
    | some depth => some (Returned.int depth, self)
  | Call.IncrSkipCount => some (Returned.void, self.IncrSkipCount)
  | Call.GetSkipCount => some (Returned.int self.GetSkipCount, self)

/-- The calls of `calls` run to their return one after the other, in list order, starting on
`self`: what each returned and the resource they leave; `none` when one of them cannot
return. -/
def run : List Call → NGraphPrefetchSharedResouce →
    Option (List Returned × NGraphPrefetchSharedResouce)
  | [], self => some ([], self)
  | c :: rest, self =>
    match call self c with
    | none => none
    | some (returned, self1) =>
      match run rest self1 with
      | none => none
      | some (returneds, self2) => some (returned :: returneds, self2)

/-- The number of `IncrSkipCount` calls among `calls`. -/
def countIncrSkipCount (calls : List Call) : Nat :=
  calls.count Call.IncrSkipCount

/-- The bundles pushed by the `AddNextInputTensorBundleForDeviceTransfer` calls of `calls`, in
call order. -/
def pushedForDeviceTransfer : List Call → List InputTensorBundle
  | [] => []
  | Call.AddNextInputTensorBundleForDeviceTransfer next :: rest =>
    next :: pushedForDeviceTransfer rest
  | _ :: rest => pushedForDeviceTransfer rest

/-- The bundles pushed by the `AddNextInputTensorBundleReadyForDeviceExecution` calls of
`calls`, in call order. -/
def pushedReadyForDeviceExecution : List Call → List InputTensorBundle
  | [] => []
  | Call.AddNextInputTensorBundleReadyForDeviceExecution next :: rest =>
    next :: pushedReadyForDeviceExecution rest
  | _ :: rest => pushedReadyForDeviceExecution rest

/-- The bundles that the `GetNextInputTensorBundleForDeviceTransfer` calls of `calls`
returned, in call order, given what each call of `calls` returned. -/
def poppedForDeviceTransfer : List Call → List Returned → List InputTensorBundle
  | Call.GetNextInputTensorBundleForDeviceTransfer :: rest, Returned.bundle next :: returneds =>
    next :: poppedForDeviceTransfer rest returneds
  | _ :: rest, _ :: returneds => poppedForDeviceTransfer rest returneds
  | _, _ => []

/-- The bundles that the `GetNextInputTensorBundleReadyForDeviceExecution` calls of `calls`
returned, in call order, given what each call of `calls` returned. -/
def poppedReadyForDeviceExecution : List Call → List Returned → List InputTensorBundle
  | Call.GetNextInputTensorBundleReadyForDeviceExecution :: rest,
      Returned.bundle next :: returneds =>
    next :: poppedReadyForDeviceExecution rest returneds
  | _ :: rest, _ :: returneds => poppedReadyForDeviceExecution rest returneds
  | _, _ => []

end NGraphPrefetchSharedResouce

/-! ## The protocol of the two threads -/

/-- Modelled from the spec: a step of one of the two threads that use the resource
(section 4.4; the execution node and the prefetcher are not among the sources).  The
execution node pushes a bundle onto the awaiting-staging queue and pops a bundle from the
ready-for-execution queue; the prefetcher pops a bundle from the awaiting-staging queue,
copies the host data into its tensors, which leaves the id and the handles as they are, and
pushes that bundle onto the ready-for-execution queue. -/
inductive PipelineStep where
  | executionNodePush (bundle : InputTensorBundle)
  | prefetcherPop
  | prefetcherPush
  | executionNodePop
  deriving DecidableEq, Repr

/-- Modelled from the spec: the resource together with what the two threads of section 4.4
hold and have done: the bundle the prefetcher has popped and not yet pushed, the bundles the
execution node has pushed, and the bundles the execution node has popped, both in order. -/
structure PipelineState where
  resource : NGraphPrefetchSharedResouce
  prefetcherHolds : Option InputTensorBundle := none
  pushedByExecutionNode : List InputTensorBundle := []
  poppedByExecutionNode : List InputTensorBundle := []
  deriving DecidableEq, Repr

namespace PipelineState

/-- Modelled from the spec: one step of the protocol of section 4.4 that runs to its end, each
queue operation being one indivisible call of the resource; `none` when the step cannot be
taken: a pop on an empty queue blocks, and the prefetcher pops only when it holds no bundle
and pushes only the bundle it holds. -/
def step (s : PipelineState) : PipelineStep → Option PipelineState
  | PipelineStep.executionNodePush bundle =>
    some { s with
      resource := s.resource.AddNextInputTensorBundleForDeviceTransfer bundle
      pushedByExecutionNode := s.pushedByExecutionNode ++ [bundle] }
  | PipelineStep.prefetcherPop =>
    match s.prefetcherHolds with
    | some _ => none
    | none =>
      match s.resource.GetNextInputTensorBundleForDeviceTransfer with
      | none => none
      | some (next, resource1) =>
        some { s with resource := resource1, prefetcherHolds := some next }
  | PipelineStep.prefetcherPush =>
    match s.prefetcherHolds with
    | none => none
    | some next =>
      some { s with
        resource := s.resource.AddNextInputTensorBundleReadyForDeviceExecution next
        prefetcherHolds := none }
  | PipelineStep.executionNodePop =>
    match s.resource.GetNextInputTensorBundleReadyForDeviceExecution with
    | none => none
    | some (next, resource1) =>
      some { s with
        resource := resource1
        poppedByExecutionNode := s.poppedByExecutionNode ++ [next] }

/-- Modelled from the spec: the steps of `steps` taken one after the other, in list order, an
interleaving of the two threads; `none` when one of them cannot be taken. -/
def run : List PipelineStep → PipelineState → Option PipelineState
  | [], s => some s
  | st :: rest, s =>
    match s.step st with
    | none => none
    | some s1 => run rest s1

/-- The bundles that the execution node pushes in `steps`, in order. -/
def pushedIn : List PipelineStep → List InputTensorBundle
  | [] => []
  | PipelineStep.executionNodePush bundle :: rest => bundle :: pushedIn rest
  | _ :: rest => pushedIn rest

end PipelineState

/-! ## Catalog contents entered by the tests -/

/-- The catalog after `EnterVarInCatalog` and `EnterPrefetchInCatalog` of
`test_ngraph_tensor_manager.cpp` (lines 37-71) have run on a cleared catalog for the node
`(ng_encap_graph_id, ng_encap_node_name)`: the listed input and output indexes are entered as
variables, the copy indexes are registered, and `prefetched_inp_indexes`, when given, is
registered as the prefetch-eligible set. -/
def testCatalog (ng_encap_graph_id : Int) (ng_encap_node_name : String)
    (var_inp_indexes var_out_indexes out_indexes_need_copy : List Int)
    (prefetched_inp_indexes : Option (List Int)) : NGraphCatalog where
  ExistsInInputVariableSharedNameMap := fun g n i =>
    decide (g = ng_encap_graph_id ∧ n = ng_encap_node_name ∧ i ∈ var_inp_indexes)
  ExistsInEncapOutputInfoMap := fun g n i =>
    decide (g = ng_encap_graph_id ∧ n = ng_encap_node_name ∧ i ∈ var_out_indexes)
  EncapOutputIndexNeedsCopy := fun g n i =>
    decide (g = ng_encap_graph_id ∧ n = ng_encap_node_name ∧ i ∈ out_indexes_need_copy)
  prefetched_input_index_map_ := fun g n =>
    if g = ng_encap_graph_id ∧ n = ng_encap_node_name then prefetched_inp_indexes else none

/-- The catalog of the test `VariablesAndPrefetch` in a build with variables (lines 252-281). -/
def catalogVariablesAndPrefetch : NGraphCatalog :=
  testCatalog 1 "xyz_1" (FindComplement 7 [1, 3, 4, 6]) (FindComplement 4 [0, 2]) [2, 3]
    (some [3, 6])

/-- The catalog of the test `PrefetchNotInPipeline` (lines 316-318). -/
def catalogPrefetchNotInPipeline : NGraphCatalog :=
  testCatalog 1 "xyz_1" [] [] [] (some [6, 7])

/-- The object the test `VariablesAndPrefetch` expects in a build with variables
(lines 254-262 and 287-303). -/
def expectedVariablesAndPrefetch : NGraphTensorManager :=
  { m_ng_encap_node_name := "xyz_1"
    m_ng_encap_cluster_id := 1
    m_ng_encap_graph_id := 1
    m_number_of_inputs := 7
    m_number_of_outputs := 4
    m_input_indexes_from_variables := [0, 2, 5]
    m_output_indexes_assigning_variable := [1, 3]
    m_output_indexes_that_need_copy := [2, 3]
    m_pipelined_input_indexes := [1, 3, 4, 6]
    m_pipelined_output_indexes := [0, 2]
    m_prefetched_input_indexes := [3, 6]
    m_pipelined_input_indexes_prefetched := [1, 3] }

/-- The catalog of the test `HasVariablesNoPrefetch` in a build with variables
(lines 148-160). -/
def catalogHasVariablesNoPrefetch : NGraphCatalog :=
  testCatalog 1 "xyz_1" (FindComplement 5 [1, 3, 4]) (FindComplement 2 [1]) [1] none

/-- The object the test `HasVariablesNoPrefetch` expects in a build with variables
(lines 148-155 and 176-189). -/
def expectedHasVariablesNoPrefetch : NGraphTensorManager :=
  { m_ng_encap_node_name := "xyz_1"
    m_ng_encap_cluster_id := 1
    m_ng_encap_graph_id := 1
    m_number_of_inputs := 5
    m_number_of_outputs := 2
    m_input_indexes_from_variables := [0, 2]
    m_output_indexes_assigning_variable := [0]
    m_output_indexes_that_need_copy := [1]
    m_pipelined_input_indexes := [1, 3, 4]
    m_pipelined_output_indexes := [1] }

/-- The catalog of the test `NoVariablesHasPrefetch` (lines 208-213). -/
def catalogNoVariablesHasPrefetch : NGraphCatalog :=
  testCatalog 1 "xyz_1" [] [] [] (some [1, 3])

/-- The object the test `NoVariablesHasPrefetch` expects (lines 205-232). -/
def expectedNoVariablesHasPrefetch : NGraphTensorManager :=
  { m_ng_encap_node_name := "xyz_1"
    m_ng_encap_cluster_id := 1
    m_ng_encap_graph_id := 1
    m_number_of_inputs := 5
    m_number_of_outputs := 2
    m_pipelined_input_indexes := [0, 1, 2, 3, 4]
    m_pipelined_output_indexes := [0, 1]
    m_prefetched_input_indexes := [1, 3]
    m_pipelined_input_indexes_prefetched := [1, 3] }

/-- The catalog of the variables-present scenario of section 8 of the spec, entered as
`EnterVarInCatalog` does: inputs `{0, 2}` fed by variables, output `{0}` assigning a variable
and needing a copy, no prefetch-eligible set. -/
def catalogVariablesPresent : NGraphCatalog :=
  testCatalog 1 "xyz_1" [0, 2] [0] [0] none

/-- The object the variables-present scenario of section 8 of the spec expects for 5 inputs
and 2 outputs in a build with variables. -/
def expectedVariablesPresent : NGraphTensorManager :=
  { m_ng_encap_node_name := "xyz_1"
    m_ng_encap_cluster_id := 1
    m_ng_encap_graph_id := 1
    m_number_of_inputs := 5
    m_number_of_outputs := 2
    m_input_indexes_from_variables := [0, 2]
    m_output_indexes_assigning_variable := [0]
    m_output_indexes_that_need_copy := [0]
    m_pipelined_input_indexes := [1, 3, 4]
    m_pipelined_output_indexes := [1] }

/-- The object the tests `NoVariablesNoPrefetch` and `HasVariablesNoPrefetch` expect for 5
inputs and 2 outputs when no variable is recorded (lines 113-128 and 163-169). -/
def expectedNoVariablesNoPrefetch : NGraphTensorManager :=
  { m_ng_encap_node_name := "xyz_1"
    m_ng_encap_cluster_id := 1
    m_ng_encap_graph_id := 1
    m_number_of_inputs := 5
    m_number_of_outputs := 2
    m_pipelined_input_indexes := [0, 1, 2, 3, 4]
    m_pipelined_output_indexes := [0, 1] }

/-- The catalog of the test `NoVariablesHasPrefetch` when the registered `unordered_set`
enumerates its members `{1, 3}` as `3, 1`. -/
def catalogNoVariablesHasPrefetchReversed : NGraphCatalog :=
  testCatalog 1 "xyz_1" [] [] [] (some [3, 1])

/-- The object the test `VariablesAndPrefetch` expects in a build without variables
(lines 269-277 and 287-303). -/
def expectedVariablesAndPrefetchWithoutVariables : NGraphTensorManager :=
  { m_ng_encap_node_name := "xyz_1"
    m_ng_encap_cluster_id := 1
    m_ng_encap_graph_id := 1
    m_number_of_inputs := 7
    m_number_of_outputs := 4
    m_pipelined_input_indexes := [0, 1, 2, 3, 4, 5, 6]
    m_pipelined_output_indexes := [0, 1, 2, 3]
    m_prefetched_input_indexes := [3, 6]
    m_pipelined_input_indexes_prefetched := [3, 6] }

/-! ## The index loop and `FindComplement` -/

theorem mem_indexRange {n x : Int} : x ∈ indexRange n ↔ 0 ≤ x ∧ x < n := by
  unfold indexRange
  simp only [List.mem_map, List.mem_range]
  constructor
  · rintro ⟨k, hk, rfl⟩
    refine ⟨Int.ofNat_nonneg k, ?_⟩
    have : (Int.ofNat k) = (k : Int) := rfl
    omega
  · rintro ⟨h0, hn⟩
    refine ⟨x.toNat, by omega, ?_⟩
    show ((x.toNat : Nat) : Int) = x
    omega

theorem sorted_indexRange (n : Int) : (indexRange n).Sorted (fun a b => a < b) := by
  unfold indexRange
  exact (List.pairwise_lt_range _).map Int.ofNat (fun a b h => Int.ofNat_lt.2 h)

theorem length_indexRange (n : Int) : (indexRange n).length = n.toNat := by
  simp [indexRange]

theorem foldl_keep_eq_filter {α : Type} (p : α → Bool) (l : List α) (acc : List α) :
    l.foldl (fun complement candidate => if p candidate then complement ++ [candidate] else complement) acc
      = acc ++ l.filter p := by
  induction l generalizing acc with
  | nil => simp
  | cons a l ih =>
    simp only [List.foldl_cons, List.filter_cons]
    by_cases h : p a
    · simp [h, ih]
    · simp [h, ih]

theorem FindComplement_eq_filter (n : Int) (S : List Int) :
    FindComplement n S = (indexRange n).filter (fun i => decide (i ∉ S)) := by
  unfold FindComplement
  have := foldl_keep_eq_filter (fun i => decide (i ∉ S)) (indexRange n) []
  simp only [List.nil_append] at this
  rw [← this]
  congr 1
  funext complement candidate
  by_cases h : candidate ∈ S
  · have : List.indexOf candidate S ≠ S.length := fun e => (List.indexOf_eq_length.1 e) h
    simp [h, this]
  · have : List.indexOf candidate S = S.length := List.indexOf_eq_length.2 h
    simp [h, this]

theorem mem_FindComplement {n x : Int} {S : List Int} :
    x ∈ FindComplement n S ↔ (0 ≤ x ∧ x < n) ∧ x ∉ S := by
  rw [FindComplement_eq_filter, List.mem_filter, mem_indexRange]
  simp

theorem sorted_FindComplement (n : Int) (S : List Int) :
    (FindComplement n S).Sorted (fun a b => a < b) := by
  rw [FindComplement_eq_filter]
  exact (sorted_indexRange n).filter _

/-! ## `Initialize` in closed form -/

namespace NGraphTensorManager

theorem foldl_inputVariableStep (cat : NGraphCatalog) (l : List Int) (s : NGraphTensorManager) :
    l.foldl (inputVariableStep cat) s =
      { s with
        m_input_indexes_from_variables :=
          s.m_input_indexes_from_variables ++
            l.filter (fun i =>
              cat.ExistsInInputVariableSharedNameMap s.m_ng_encap_graph_id
                s.m_ng_encap_node_name i) } := by
  induction l generalizing s with
  | nil => simp
  | cons a l ih =>
    rw [List.foldl_cons, ih]
    unfold inputVariableStep
    by_cases h : cat.ExistsInInputVariableSharedNameMap s.m_ng_encap_graph_id
        s.m_ng_encap_node_name a
    · simp [h, List.filter_cons]
    · simp [h, List.filter_cons]

theorem foldl_outputVariableStep (cat : NGraphCatalog) (l : List Int) (s : NGraphTensorManager) :
    l.foldl (outputVariableStep cat) s =
      { s with
        m_output_indexes_assigning_variable :=
          s.m_output_indexes_assigning_variable ++
            l.filter (fun i =>
              cat.ExistsInEncapOutputInfoMap s.m_ng_encap_graph_id s.m_ng_encap_node_name i)
        m_output_indexes_that_need_copy :=
          s.m_output_indexes_that_need_copy ++
            l.filter (fun i =>
              cat.EncapOutputIndexNeedsCopy s.m_ng_encap_graph_id s.m_ng_encap_node_name i) } := by
  induction l generalizing s with
  | nil => simp
  | cons a l ih =>
    rw [List.foldl_cons, ih]
    unfold outputVariableStep
    by_cases h : cat.ExistsInEncapOutputInfoMap s.m_ng_encap_graph_id s.m_ng_encap_node_name a <;>
    by_cases h2 : cat.EncapOutputIndexNeedsCopy s.m_ng_encap_graph_id s.m_ng_encap_node_name a <;>
    simp [h, h2, List.filter_cons]

theorem locatePrefetched_ok_of_forall_mem (l : List Int) (s : NGraphTensorManager)
    (h : ∀ p ∈ l, p ∈ s.m_pipelined_input_indexes) :
    locatePrefetched l s =
      Except.ok
        { s with
          m_pipelined_input_indexes_prefetched :=
            s.m_pipelined_input_indexes_prefetched ++
              l.map (fun p => Int.ofNat (s.m_pipelined_input_indexes.indexOf p)) } := by
  induction l generalizing s with
  | nil => simp [locatePrefetched]
  | cons a l ih =>
    have ha : a ∈ s.m_pipelined_input_indexes := h a (List.mem_cons_self a l)
    have hne : List.indexOf a s.m_pipelined_input_indexes ≠ s.m_pipelined_input_indexes.length :=
      fun e => (List.indexOf_eq_length.1 e) ha
    simp only [locatePrefetched, prefetchPositionStep, hne, if_false]
    rw [ih]
    · simp
    · intro p hp
      exact h p (List.mem_cons_of_mem a hp)

theorem locatePrefetched_error_of_exists_not_mem (l : List Int) (s : NGraphTensorManager)
    (h : ∃ p ∈ l, p ∉ s.m_pipelined_input_indexes) :
    ∃ msg, locatePrefetched l s = Except.error msg := by
  induction l generalizing s with
  | nil =>
    obtain ⟨p, hp, _⟩ := h
    cases hp
  | cons a l ih =>
    by_cases ha : a ∈ s.m_pipelined_input_indexes
    · have hne : List.indexOf a s.m_pipelined_input_indexes ≠
          s.m_pipelined_input_indexes.length :=
        fun e => (List.indexOf_eq_length.1 e) ha
      simp only [locatePrefetched, prefetchPositionStep, hne, if_false]
      apply ih
      obtain ⟨p, hp, hnp⟩ := h
      rcases List.mem_cons.1 hp with rfl | hp
      · exact absurd ha hnp
      · exact ⟨p, hp, hnp⟩
    · have he : List.indexOf a s.m_pipelined_input_indexes =
          s.m_pipelined_input_indexes.length := List.indexOf_eq_length.2 ha
      refine ⟨"Prefetched input index " ++ toString a ++ " not found in pipelined inputs.", ?_⟩
      simp only [locatePrefetched, prefetchPositionStep, he, if_true]

theorem collectPrefetched_computePipelined_collectVariables (variablesEnabled : Bool)
    (cat : NGraphCatalog) (node_name : String)
    (cluster_id graph_id number_of_inputs number_of_outputs : Int) :
    collectPrefetched cat (computePipelined (collectVariables variablesEnabled cat
        (init node_name cluster_id graph_id number_of_inputs number_of_outputs))) =
      beforeLocate variablesEnabled cat node_name cluster_id graph_id number_of_inputs
        number_of_outputs := by
  unfold collectVariables
  cases variablesEnabled with
  | false =>
    cases hreg : cat.prefetched_input_index_map_ graph_id node_name with
    | none =>
      simp [collectPrefetched, computePipelined, init, beforeLocate, variableInputs,
        variableOutputs, copyOutputs, NGraphCatalog.ExistsInPrefetchedInputIndexMap,
        NGraphCatalog.GetIndexesFromPrefetchedInputIndexMap, hreg]
    | some S =>
      simp [collectPrefetched, computePipelined, init, beforeLocate, variableInputs,
        variableOutputs, copyOutputs, NGraphCatalog.ExistsInPrefetchedInputIndexMap,
        NGraphCatalog.GetIndexesFromPrefetchedInputIndexMap, hreg]
  | true =>
    simp only [if_true, foldl_inputVariableStep, foldl_outputVariableStep]
    cases hreg : cat.prefetched_input_index_map_ graph_id node_name with
    | none =>
      simp [collectPrefetched, computePipelined, init, beforeLocate, variableInputs,
        variableOutputs, copyOutputs, NGraphCatalog.ExistsInPrefetchedInputIndexMap,
        NGraphCatalog.GetIndexesFromPrefetchedInputIndexMap, hreg]
    | some S =>
      simp [collectPrefetched, computePipelined, init, beforeLocate, variableInputs,
        variableOutputs, copyOutputs, NGraphCatalog.ExistsInPrefetchedInputIndexMap,
        NGraphCatalog.GetIndexesFromPrefetchedInputIndexMap, hreg]

theorem create_eq_locatePrefetched (variablesEnabled : Bool) (cat : NGraphCatalog)
    (node_name : String) (cluster_id graph_id number_of_inputs number_of_outputs : Int) :
    create variablesEnabled cat node_name cluster_id graph_id number_of_inputs
        number_of_outputs =
      locatePrefetched
        (List.insertionSort (fun a b => a ≤ b)
          (cat.GetIndexesFromPrefetchedInputIndexMap graph_id node_name))
        (beforeLocate variablesEnabled cat node_name cluster_id graph_id number_of_inputs
          number_of_outputs) := by
  unfold create Initialize
  simp only [collectPrefetched_computePipelined_collectVariables]
  rfl

theorem create_ok_of_forall_mem (variablesEnabled : Bool) (cat : NGraphCatalog)
    (node_name : String) (cluster_id graph_id number_of_inputs number_of_outputs : Int)
    (h : ∀ p ∈ cat.GetIndexesFromPrefetchedInputIndexMap graph_id node_name,
      p ∈ FindComplement number_of_inputs
        (variableInputs variablesEnabled cat node_name graph_id number_of_inputs)) :
    create variablesEnabled cat node_name cluster_id graph_id number_of_inputs
        number_of_outputs =
      Except.ok
        { beforeLocate variablesEnabled cat node_name cluster_id graph_id number_of_inputs
            number_of_outputs with
          m_pipelined_input_indexes_prefetched :=
            (List.insertionSort (fun a b => a ≤ b)
              (cat.GetIndexesFromPrefetchedInputIndexMap graph_id node_name)).map
              (fun p => Int.ofNat
                ((FindComplement number_of_inputs
                  (variableInputs variablesEnabled cat node_name graph_id
                    number_of_inputs)).indexOf p)) } := by
  rw [create_eq_locatePrefetched, locatePrefetched_ok_of_forall_mem]
  · simp [beforeLocate]
  · intro p hp
    exact h p ((List.perm_insertionSort _ _).mem_iff.1 hp)

theorem create_error_of_exists_not_mem (variablesEnabled : Bool) (cat : NGraphCatalog)
    (node_name : String) (cluster_id graph_id number_of_inputs number_of_outputs : Int)
    (h : ∃ p ∈ cat.GetIndexesFromPrefetchedInputIndexMap graph_id node_name,
      p ∉ FindComplement number_of_inputs
        (variableInputs variablesEnabled cat node_name graph_id number_of_inputs)) :
    ∃ msg, create variablesEnabled cat node_name cluster_id graph_id number_of_inputs
        number_of_outputs = Except.error msg := by
  rw [create_eq_locatePrefetched]
  apply locatePrefetched_error_of_exists_not_mem
  obtain ⟨p, hp, hnp⟩ := h
  exact ⟨p, (List.perm_insertionSort _ _).mem_iff.2 hp, hnp⟩

theorem create_ok_inv {variablesEnabled : Bool} {cat : NGraphCatalog}
    {node_name : String} {cluster_id graph_id number_of_inputs number_of_outputs : Int}
    {tm : NGraphTensorManager}
    (h : create variablesEnabled cat node_name cluster_id graph_id number_of_inputs
        number_of_outputs = Except.ok tm) :
    (∀ p ∈ cat.GetIndexesFromPrefetchedInputIndexMap graph_id node_name,
      p ∈ FindComplement number_of_inputs
        (variableInputs variablesEnabled cat node_name graph_id number_of_inputs)) ∧
    tm =
      { beforeLocate variablesEnabled cat node_name cluster_id graph_id number_of_inputs
          number_of_outputs with
        m_pipelined_input_indexes_prefetched :=
          (List.insertionSort (fun a b => a ≤ b)
            (cat.GetIndexesFromPrefetchedInputIndexMap graph_id node_name)).map
            (fun p => Int.ofNat
              ((FindComplement number_of_inputs
                (variableInputs variablesEnabled cat node_name graph_id
                  number_of_inputs)).indexOf p)) } := by
  by_cases hall : ∀ p ∈ cat.GetIndexesFromPrefetchedInputIndexMap graph_id node_name,
      p ∈ FindComplement number_of_inputs
        (variableInputs variablesEnabled cat node_name graph_id number_of_inputs)
  · refine ⟨hall, ?_⟩
    rw [create_ok_of_forall_mem _ _ _ _ _ _ _ hall] at h
    exact (Except.ok.inj h).symm
  · exfalso
    have hex : ∃ p ∈ cat.GetIndexesFromPrefetchedInputIndexMap graph_id node_name,
        p ∉ FindComplement number_of_inputs
          (variableInputs variablesEnabled cat node_name graph_id number_of_inputs) := by
      by_contra hc
      apply hall
      intro p hp
      by_contra hnp
      exact hc ⟨p, hp, hnp⟩
    obtain ⟨msg, hmsg⟩ := create_error_of_exists_not_mem variablesEnabled cat node_name
      cluster_id graph_id number_of_inputs number_of_outputs hex
    rw [hmsg] at h
    cases h

theorem pipelinedInputIndexesOf_eq (variablesEnabled : Bool) (cat : NGraphCatalog)
    (node_name : String) (cluster_id graph_id number_of_inputs number_of_outputs : Int) :
    pipelinedInputIndexesOf variablesEnabled cat node_name cluster_id graph_id
        number_of_inputs number_of_outputs =
      FindComplement number_of_inputs
        (variableInputs variablesEnabled cat node_name graph_id number_of_inputs) := by
  unfold pipelinedInputIndexesOf collectVariables
  cases variablesEnabled with
  | false => simp [computePipelined, init, variableInputs]
  | true =>
    simp [computePipelined, init, variableInputs, foldl_inputVariableStep,
      foldl_outputVariableStep]

end NGraphTensorManager

theorem indexOf_eq_countP_of_sorted {l : List Int} (hs : l.Sorted (fun a b => a < b)) {a : Int}
    (ha : a ∈ l) : l.indexOf a = l.countP (fun i => decide (i < a)) := by
  induction l with
  | nil => cases ha
  | cons b t ih =>
    have hbt : ∀ x ∈ t, b < x := (List.sorted_cons.1 hs).1
    have hst : t.Sorted (fun a b => a < b) := (List.sorted_cons.1 hs).2
    by_cases hab : b = a
    · subst hab
      rw [List.indexOf_cons_self, List.countP_cons]
      have h0 : t.countP (fun i => decide (i < b)) = 0 := by
        rw [List.countP_eq_zero]
        intro x hx
        have := hbt x hx
        simp only [decide_eq_true_eq]
        omega
      simp [h0]
    · have hat : a ∈ t := by
        rcases List.mem_cons.1 ha with h | h
        · exact absurd h.symm hab
        · exact h
      have hlt : b < a := hbt a hat
      rw [List.indexOf_cons_ne _ hab, ih hst hat, List.countP_cons]
      simp [hlt]

theorem getElem?_indexOf_of_mem {l : List Int} {a : Int} (ha : a ∈ l) :
    l[l.indexOf a]? = some a := by
  have := List.indexOf_get? ha
  simpa using this

theorem variableInputs_eq_filter (variablesEnabled : Bool) (cat : NGraphCatalog)
    (node_name : String) (graph_id number_of_inputs : Int) :
    NGraphTensorManager.variableInputs variablesEnabled cat node_name graph_id
        number_of_inputs =
      (indexRange number_of_inputs).filter
        (fun i => variablesEnabled &&
          cat.ExistsInInputVariableSharedNameMap graph_id node_name i) := by
  cases variablesEnabled <;> simp [NGraphTensorManager.variableInputs]

theorem variableOutputs_eq_filter (variablesEnabled : Bool) (cat : NGraphCatalog)
    (node_name : String) (graph_id number_of_outputs : Int) :
    NGraphTensorManager.variableOutputs variablesEnabled cat node_name graph_id
        number_of_outputs =
      (indexRange number_of_outputs).filter
        (fun i => variablesEnabled && cat.ExistsInEncapOutputInfoMap graph_id node_name i) := by
  cases variablesEnabled <;> simp [NGraphTensorManager.variableOutputs]

theorem filter_append_FindComplement_perm (n : Int) (p : Int → Bool) :
    ((indexRange n).filter p ++ FindComplement n ((indexRange n).filter p)).Perm
      (indexRange n) := by
  have hc : FindComplement n ((indexRange n).filter p) =
      (indexRange n).filter (fun x => !p x) := by
    rw [FindComplement_eq_filter]
    apply List.filter_congr
    intro x hx
    by_cases hpx : p x = true
    · simp [List.mem_filter, hx, hpx]
    · simp [List.mem_filter, hx, hpx]
  rw [hc]
  exact List.filter_append_perm p (indexRange n)

/-- What it means for two index vectors to partition `[0, n)`. -/
theorem partition_of_perm {n : Int} {a b : List Int} (hn : 0 ≤ n)
    (hperm : (a ++ b).Perm (indexRange n)) :
    (∀ i, ¬ (i ∈ a ∧ i ∈ b)) ∧
    (∀ i, 0 ≤ i → i < n → (i ∈ a ∧ i ∉ b) ∨ (i ∉ a ∧ i ∈ b)) ∧
    (∀ i, i ∈ a ∨ i ∈ b → 0 ≤ i ∧ i < n) ∧
    a.Nodup ∧ b.Nodup ∧
    (a.length : Int) + (b.length : Int) = n := by
  have hnd : (a ++ b).Nodup :=
    hperm.nodup_iff.2 (sorted_indexRange n).nodup
  have hdisj : ∀ i, ¬ (i ∈ a ∧ i ∈ b) := fun i hi =>
    (List.nodup_append.1 hnd).2.2 hi.1 hi.2
  have hmem : ∀ i, i ∈ a ∨ i ∈ b ↔ 0 ≤ i ∧ i < n := by
    intro i
    rw [← List.mem_append, hperm.mem_iff, mem_indexRange]
  refine ⟨hdisj, ?_, fun i hi => (hmem i).1 hi, (List.nodup_append.1 hnd).1,
    (List.nodup_append.1 hnd).2.1, ?_⟩
  · intro i h0 hlt
    rcases (hmem i).2 ⟨h0, hlt⟩ with hi | hi
    · exact Or.inl ⟨hi, fun hb => hdisj i ⟨hi, hb⟩⟩
    · exact Or.inr ⟨fun ha => hdisj i ⟨ha, hi⟩, hi⟩
  · have hlen := hperm.length_eq
    rw [List.length_append, length_indexRange] at hlen
    omega

/-! ## The queues of the shared resource -/

namespace NGraphPrefetchSharedResouce

theorem pushAll_ForDeviceTransfer (self : NGraphPrefetchSharedResouce)
    (bundles : List InputTensorBundle) :
    pushAll AddNextInputTensorBundleForDeviceTransfer self bundles =
      { self with m_tf_2_ng := { m_queue := self.m_tf_2_ng.m_queue ++ bundles } } := by
  unfold pushAll
  induction bundles generalizing self with
  | nil => simp
  | cons b bs ih =>
    rw [List.foldl_cons, ih]
    simp [AddNextInputTensorBundleForDeviceTransfer, ThreadSafeQueue.Add]

theorem pushAll_ReadyForDeviceExecution (self : NGraphPrefetchSharedResouce)
    (bundles : List InputTensorBundle) :
    pushAll AddNextInputTensorBundleReadyForDeviceExecution self bundles =
      { self with m_ng_2_tf := { m_queue := self.m_ng_2_tf.m_queue ++ bundles } } := by
  unfold pushAll
  induction bundles generalizing self with
  | nil => simp
  | cons b bs ih =>
    rw [List.foldl_cons, ih]
    simp [AddNextInputTensorBundleReadyForDeviceExecution, ThreadSafeQueue.Add]

theorem popMany_ForDeviceTransfer (bundles rest : List InputTensorBundle)
    (self : NGraphPrefetchSharedResouce) (h : self.m_tf_2_ng.m_queue = bundles ++ rest) :
    popMany GetNextInputTensorBundleForDeviceTransfer bundles.length self =
      some (bundles, { self with m_tf_2_ng := { m_queue := rest } }) := by
  induction bundles generalizing self with
  | nil =>
    simp only [List.nil_append] at h
    simp [popMany, ← h]
  | cons b bs ih =>
    have hget : GetNextInputTensorBundleForDeviceTransfer self =
        some (b, { self with m_tf_2_ng := { m_queue := bs ++ rest } }) := by
      simp [GetNextInputTensorBundleForDeviceTransfer, ThreadSafeQueue.GetNextAvailable, h]
    simp only [List.length_cons, popMany, hget]
    rw [ih]
    rfl

theorem popMany_ReadyForDeviceExecution (bundles rest : List InputTensorBundle)
    (self : NGraphPrefetchSharedResouce) (h : self.m_ng_2_tf.m_queue = bundles ++ rest) :
    popMany GetNextInputTensorBundleReadyForDeviceExecution bundles.length self =
      some (bundles, { self with m_ng_2_tf := { m_queue := rest } }) := by
  induction bundles generalizing self with
  | nil =>
    simp only [List.nil_append] at h
    simp [popMany, ← h]
  | cons b bs ih =>
    have hget : GetNextInputTensorBundleReadyForDeviceExecution self =
        some (b, { self with m_ng_2_tf := { m_queue := bs ++ rest } }) := by
      simp [GetNextInputTensorBundleReadyForDeviceExecution,
        ThreadSafeQueue.GetNextAvailable, h]
    simp only [List.length_cons, popMany, hget]
    rw [ih]
    rfl

end NGraphPrefetchSharedResouce

/-! ## Construction of the tensor manager -/

/-- C1: for every input count, output count and catalog content, and in either build, the
constructor throws exactly when a prefetch-eligible index set is registered for the node and
one of its members is not among the pipelined input indexes, and it returns an object in
every other case; with 5 inputs and the registered set `{6, 7}` it throws. -/
theorem create_error_iff_prefetch_not_pipelined (variablesEnabled : Bool) (cat : NGraphCatalog)
    (node_name : String) (cluster_id graph_id number_of_inputs number_of_outputs : Int) :
    ((∃ msg, NGraphTensorManager.create variablesEnabled cat node_name cluster_id graph_id
          number_of_inputs number_of_outputs = Except.error msg) ↔
      ∃ S, cat.prefetched_input_index_map_ graph_id node_name = some S ∧
        ∃ i ∈ S, i ∉ NGraphTensorManager.pipelinedInputIndexesOf variablesEnabled cat node_name
          cluster_id graph_id number_of_inputs number_of_outputs) ∧
    ((∃ tm, NGraphTensorManager.create variablesEnabled cat node_name cluster_id graph_id
          number_of_inputs number_of_outputs = Except.ok tm) ↔
      ¬ ∃ S, cat.prefetched_input_index_map_ graph_id node_name = some S ∧
        ∃ i ∈ S, i ∉ NGraphTensorManager.pipelinedInputIndexesOf variablesEnabled cat node_name
          cluster_id graph_id number_of_inputs number_of_outputs) ∧
    (∃ msg, NGraphTensorManager.create variablesEnabled catalogPrefetchNotInPipeline "xyz_1" 1 1
        5 2 = Except.error msg) := by
  have key : (∃ S, cat.prefetched_input_index_map_ graph_id node_name = some S ∧
        ∃ i ∈ S, i ∉ NGraphTensorManager.pipelinedInputIndexesOf variablesEnabled cat node_name
          cluster_id graph_id number_of_inputs number_of_outputs) ↔
      ∃ p ∈ cat.GetIndexesFromPrefetchedInputIndexMap graph_id node_name,
        p ∉ FindComplement number_of_inputs
          (NGraphTensorManager.variableInputs variablesEnabled cat node_name graph_id
            number_of_inputs) := by
    rw [NGraphTensorManager.pipelinedInputIndexesOf_eq]
    unfold NGraphCatalog.GetIndexesFromPrefetchedInputIndexMap
    cases cat.prefetched_input_index_map_ graph_id node_name with
    | none => simp
    | some S => simp
  rw [key]
  refine ⟨⟨?_, ?_⟩, ⟨?_, ?_⟩, ?_⟩
  · rintro ⟨msg, hmsg⟩
    by_contra hq
    have hall : ∀ p ∈ cat.GetIndexesFromPrefetchedInputIndexMap graph_id node_name,
        p ∈ FindComplement number_of_inputs
          (NGraphTensorManager.variableInputs variablesEnabled cat node_name graph_id
            number_of_inputs) := by
      intro p hp
      by_contra hnp
      exact hq ⟨p, hp, hnp⟩
    rw [NGraphTensorManager.create_ok_of_forall_mem _ _ _ _ _ _ _ hall] at hmsg
    cases hmsg
  · exact NGraphTensorManager.create_error_of_exists_not_mem _ _ _ _ _ _ _
  · rintro ⟨tm, htm⟩ hq
    obtain ⟨msg, hmsg⟩ := NGraphTensorManager.create_error_of_exists_not_mem variablesEnabled
      cat node_name cluster_id graph_id number_of_inputs number_of_outputs hq
    rw [hmsg] at htm
    cases htm
  · intro hq
    have hall : ∀ p ∈ cat.GetIndexesFromPrefetchedInputIndexMap graph_id node_name,
        p ∈ FindComplement number_of_inputs
          (NGraphTensorManager.variableInputs variablesEnabled cat node_name graph_id
            number_of_inputs) := by
      intro p hp
      by_contra hnp
      exact hq ⟨p, hp, hnp⟩
    exact ⟨_, NGraphTensorManager.create_ok_of_forall_mem _ _ _ _ _ _ _ hall⟩
  · cases variablesEnabled with
    | false => exact ⟨_, rfl⟩
    | true => exact ⟨_, rfl⟩

/-- C2: after a successful construction the recorded positions are as many as the prefetched
input indexes, the pipelined input indexes are strictly ascending, and the `k`-th position is
the rank of the `k`-th prefetched input index among them: the number of pipelined input
indexes smaller than it, which is the place where the pipelined input indexes hold it. -/
theorem prefetched_position_is_rank (variablesEnabled : Bool) (cat : NGraphCatalog)
    (node_name : String) (cluster_id graph_id number_of_inputs number_of_outputs : Int)
    (tm : NGraphTensorManager)
    (h : NGraphTensorManager.create variablesEnabled cat node_name cluster_id graph_id
      number_of_inputs number_of_outputs = Except.ok tm) :
    tm.m_pipelined_input_indexes_prefetched.length = tm.m_prefetched_input_indexes.length ∧
    tm.m_pipelined_input_indexes.Sorted (fun a b => a < b) ∧
    ∀ (k : Nat) (p : Int), tm.m_prefetched_input_indexes[k]? = some p →
      tm.m_pipelined_input_indexes_prefetched[k]? =
        some (Int.ofNat (tm.m_pipelined_input_indexes.countP (fun i => decide (i < p)))) ∧
      tm.m_pipelined_input_indexes[
        tm.m_pipelined_input_indexes.countP (fun i => decide (i < p))]? = some p := by
  obtain ⟨hall, rfl⟩ := NGraphTensorManager.create_ok_inv h
  refine ⟨by simp [NGraphTensorManager.beforeLocate], ?_, ?_⟩
  · exact sorted_FindComplement _ _
  · intro k p hk
    simp only [NGraphTensorManager.beforeLocate] at hk ⊢
    have hp : p ∈ cat.GetIndexesFromPrefetchedInputIndexMap graph_id node_name :=
      (List.perm_insertionSort _ _).mem_iff.1 (List.mem_iff_getElem?.2 ⟨k, hk⟩)
    have hmem := hall p hp
    have hrank := indexOf_eq_countP_of_sorted (sorted_FindComplement _ _) hmem
    refine ⟨?_, ?_⟩
    · rw [List.getElem?_map, hk, Option.map_some', hrank]
    · rw [← hrank]
      exact getElem?_indexOf_of_mem hmem

/-- Witness of C2 on the test `VariablesAndPrefetch`: 7 inputs, pipelined input indexes
`{1, 3, 4, 6}` and prefetch-eligible set `{3, 6}` give the positions `{1, 3}`. -/
theorem prefetched_position_is_rank_witness :
    NGraphTensorManager.create true catalogVariablesAndPrefetch "xyz_1" 1 1 7 4 =
      Except.ok expectedVariablesAndPrefetch ∧
    expectedVariablesAndPrefetch.m_pipelined_input_indexes = [1, 3, 4, 6] ∧
    expectedVariablesAndPrefetch.m_prefetched_input_indexes = [3, 6] ∧
    expectedVariablesAndPrefetch.m_pipelined_input_indexes_prefetched = [1, 3] ∧
    (expectedVariablesAndPrefetch.m_pipelined_input_indexes_prefetched.length =
        expectedVariablesAndPrefetch.m_prefetched_input_indexes.length ∧
      expectedVariablesAndPrefetch.m_pipelined_input_indexes.Sorted (fun a b => a < b) ∧
      ∀ (k : Nat) (p : Int), expectedVariablesAndPrefetch.m_prefetched_input_indexes[k]? = some p →
        expectedVariablesAndPrefetch.m_pipelined_input_indexes_prefetched[k]? =
          some (Int.ofNat
            (expectedVariablesAndPrefetch.m_pipelined_input_indexes.countP
              (fun i => decide (i < p)))) ∧
        expectedVariablesAndPrefetch.m_pipelined_input_indexes[
          expectedVariablesAndPrefetch.m_pipelined_input_indexes.countP
            (fun i => decide (i < p))]? = some p) :=
  ⟨rfl, rfl, rfl, rfl,
    prefetched_position_is_rank true catalogVariablesAndPrefetch "xyz_1" 1 1 7 4
      expectedVariablesAndPrefetch rfl⟩

/-! ## `FindComplement` -/

/-- C3: for every `n >= 0` and every sequence `S` of integers, `FindComplement(n, S)` is
strictly ascending, holds no element of `S`, holds only integers of `[0, n)` and holds every
integer of `[0, n)` that is not in `S`, so it has at most `n` members; it is the only
strictly ascending sequence whose members are the integers of `[0, n)` outside `S`. -/
theorem FindComplement_is_ascending_complement (n : Int) (S : List Int) (hn : 0 ≤ n) :
    (FindComplement n S).Sorted (fun a b => a < b) ∧
    (∀ x ∈ FindComplement n S, x ∉ S) ∧
    (∀ x ∈ FindComplement n S, 0 ≤ x ∧ x < n) ∧
    (∀ x, 0 ≤ x → x < n → x ∉ S → x ∈ FindComplement n S) ∧
    ((FindComplement n S).length : Int) ≤ n ∧
    (∀ l : List Int, l.Sorted (fun a b => a < b) →
      (∀ x, x ∈ l ↔ (0 ≤ x ∧ x < n) ∧ x ∉ S) → l = FindComplement n S) := by
  refine ⟨sorted_FindComplement n S, fun x hx => (mem_FindComplement.1 hx).2,
    fun x hx => (mem_FindComplement.1 hx).1,
    fun x h0 hlt hS => mem_FindComplement.2 ⟨⟨h0, hlt⟩, hS⟩, ?_, ?_⟩
  · have hle : (FindComplement n S).length ≤ (indexRange n).length := by
      rw [FindComplement_eq_filter]
      exact List.length_filter_le _ _
    rw [length_indexRange] at hle
    omega
  intro l hl hmem
  have hperm : l.Perm (FindComplement n S) := by
    rw [List.perm_ext_iff_of_nodup hl.nodup (sorted_FindComplement n S).nodup]
    intro x
    rw [hmem x, mem_FindComplement]
  exact List.eq_of_perm_of_sorted hperm hl (sorted_FindComplement n S)

/-- Witness of C3: `FindComplement(10, {0,3,5,8,9}) = {1,2,4,6,7}`. -/
theorem FindComplement_is_ascending_complement_witness :
    FindComplement 10 [0, 3, 5, 8, 9] = [1, 2, 4, 6, 7] ∧
    ((FindComplement 10 [0, 3, 5, 8, 9]).Sorted (fun a b => a < b) ∧
    (∀ x ∈ FindComplement 10 [0, 3, 5, 8, 9], x ∉ [0, 3, 5, 8, 9]) ∧
    (∀ x ∈ FindComplement 10 [0, 3, 5, 8, 9], 0 ≤ x ∧ x < 10) ∧
    (∀ x, 0 ≤ x → x < 10 → x ∉ [0, 3, 5, 8, 9] → x ∈ FindComplement 10 [0, 3, 5, 8, 9]) ∧
    ((FindComplement 10 [0, 3, 5, 8, 9]).length : Int) ≤ 10 ∧
    (∀ l : List Int, l.Sorted (fun a b => a < b) →
      (∀ x, x ∈ l ↔ (0 ≤ x ∧ x < 10) ∧ x ∉ [0, 3, 5, 8, 9]) →
      l = FindComplement 10 [0, 3, 5, 8, 9])) :=
  ⟨by decide, FindComplement_is_ascending_complement 10 [0, 3, 5, 8, 9] (by decide)⟩

/-! ## The role sets after construction -/

/-- C4: after a successful construction with a non-negative input count, the inputs fed by
variables and the pipelined inputs partition `[0, numInputs)`: together they are a
rearrangement of `0, .., numInputs - 1`, no index is in both, every index of the range is in
exactly one of them, neither repeats an index, and their lengths add up to the input
count. -/
theorem input_indexes_partition (variablesEnabled : Bool) (cat : NGraphCatalog)
    (node_name : String) (cluster_id graph_id number_of_inputs number_of_outputs : Int)
    (tm : NGraphTensorManager) (hn : 0 ≤ number_of_inputs)
    (h : NGraphTensorManager.create variablesEnabled cat node_name cluster_id graph_id
      number_of_inputs number_of_outputs = Except.ok tm) :
    (tm.m_input_indexes_from_variables ++ tm.m_pipelined_input_indexes).Perm
      (indexRange number_of_inputs) ∧
    (∀ i, ¬ (i ∈ tm.m_input_indexes_from_variables ∧ i ∈ tm.m_pipelined_input_indexes)) ∧
    (∀ i, 0 ≤ i → i < number_of_inputs →
      (i ∈ tm.m_input_indexes_from_variables ∧ i ∉ tm.m_pipelined_input_indexes) ∨
      (i ∉ tm.m_input_indexes_from_variables ∧ i ∈ tm.m_pipelined_input_indexes)) ∧
    (∀ i, i ∈ tm.m_input_indexes_from_variables ∨ i ∈ tm.m_pipelined_input_indexes →
      0 ≤ i ∧ i < number_of_inputs) ∧
    tm.m_input_indexes_from_variables.Nodup ∧ tm.m_pipelined_input_indexes.Nodup ∧
    (tm.m_input_indexes_from_variables.length : Int) +
      (tm.m_pipelined_input_indexes.length : Int) = number_of_inputs := by
  obtain ⟨_, rfl⟩ := NGraphTensorManager.create_ok_inv h
  have hperm : (NGraphTensorManager.variableInputs variablesEnabled cat node_name graph_id
        number_of_inputs ++
      FindComplement number_of_inputs
        (NGraphTensorManager.variableInputs variablesEnabled cat node_name graph_id
          number_of_inputs)).Perm (indexRange number_of_inputs) := by
    rw [variableInputs_eq_filter]
    exact filter_append_FindComplement_perm _ _
  exact ⟨hperm, partition_of_perm hn hperm⟩

/-- Witness of C4 on the test `HasVariablesNoPrefetch`: 5 inputs, of which `{0, 2}` are fed by
variables and `{1, 3, 4}` are pipelined. -/
theorem input_indexes_partition_witness :
    (0 : Int) ≤ 5 ∧
    NGraphTensorManager.create true catalogHasVariablesNoPrefetch "xyz_1" 1 1 5 2 =
      Except.ok expectedHasVariablesNoPrefetch ∧
    ((expectedHasVariablesNoPrefetch.m_input_indexes_from_variables ++
        expectedHasVariablesNoPrefetch.m_pipelined_input_indexes).Perm (indexRange 5) ∧
    (∀ i, ¬ (i ∈ expectedHasVariablesNoPrefetch.m_input_indexes_from_variables ∧
      i ∈ expectedHasVariablesNoPrefetch.m_pipelined_input_indexes)) ∧
    (∀ i, 0 ≤ i → i < 5 →
      (i ∈ expectedHasVariablesNoPrefetch.m_input_indexes_from_variables ∧
        i ∉ expectedHasVariablesNoPrefetch.m_pipelined_input_indexes) ∨
      (i ∉ expectedHasVariablesNoPrefetch.m_input_indexes_from_variables ∧
        i ∈ expectedHasVariablesNoPrefetch.m_pipelined_input_indexes)) ∧
    (∀ i, i ∈ expectedHasVariablesNoPrefetch.m_input_indexes_from_variables ∨
        i ∈ expectedHasVariablesNoPrefetch.m_pipelined_input_indexes → 0 ≤ i ∧ i < 5) ∧
    expectedHasVariablesNoPrefetch.m_input_indexes_from_variables.Nodup ∧
    expectedHasVariablesNoPrefetch.m_pipelined_input_indexes.Nodup ∧
    (expectedHasVariablesNoPrefetch.m_input_indexes_from_variables.length : Int) +
      (expectedHasVariablesNoPrefetch.m_pipelined_input_indexes.length : Int) = 5) :=
  ⟨by decide, rfl,
    input_indexes_partition true catalogHasVariablesNoPrefetch "xyz_1" 1 1 5 2
      expectedHasVariablesNoPrefetch (by decide) rfl⟩

/-- C5: after a successful construction with a non-negative output count, the outputs
assigning variables and the pipelined outputs partition `[0, numOutputs)`, whatever the
catalog answers about the outputs that need a copy: together they are a rearrangement of
`0, .., numOutputs - 1`, no index is in both, every index of the range is in exactly one of
them, neither repeats an index, and their lengths add up to the output count. -/
theorem output_indexes_partition (variablesEnabled : Bool) (cat : NGraphCatalog)
    (node_name : String) (cluster_id graph_id number_of_inputs number_of_outputs : Int)
    (tm : NGraphTensorManager) (hn : 0 ≤ number_of_outputs)
    (h : NGraphTensorManager.create variablesEnabled cat node_name cluster_id graph_id
      number_of_inputs number_of_outputs = Except.ok tm) :
    (tm.m_output_indexes_assigning_variable ++ tm.m_pipelined_output_indexes).Perm
      (indexRange number_of_outputs) ∧
    (∀ j, ¬ (j ∈ tm.m_output_indexes_assigning_variable ∧ j ∈ tm.m_pipelined_output_indexes)) ∧
    (∀ j, 0 ≤ j → j < number_of_outputs →
      (j ∈ tm.m_output_indexes_assigning_variable ∧ j ∉ tm.m_pipelined_output_indexes) ∨
      (j ∉ tm.m_output_indexes_assigning_variable ∧ j ∈ tm.m_pipelined_output_indexes)) ∧
    (∀ j, j ∈ tm.m_output_indexes_assigning_variable ∨ j ∈ tm.m_pipelined_output_indexes →
      0 ≤ j ∧ j < number_of_outputs) ∧
    tm.m_output_indexes_assigning_variable.Nodup ∧ tm.m_pipelined_output_indexes.Nodup ∧
    (tm.m_output_indexes_assigning_variable.length : Int) +
      (tm.m_pipelined_output_indexes.length : Int) = number_of_outputs := by
  obtain ⟨_, rfl⟩ := NGraphTensorManager.create_ok_inv h
  have hperm : (NGraphTensorManager.variableOutputs variablesEnabled cat node_name graph_id
        number_of_outputs ++
      FindComplement number_of_outputs
        (NGraphTensorManager.variableOutputs variablesEnabled cat node_name graph_id
          number_of_outputs)).Perm (indexRange number_of_outputs) := by
    rw [variableOutputs_eq_filter]
    exact filter_append_FindComplement_perm _ _
  exact ⟨hperm, partition_of_perm hn hperm⟩

/-- Witness of C5 on the test `VariablesAndPrefetch`: 4 outputs, `{1, 3}` assigning variables
and `{0, 2}` pipelined; of the outputs `{2, 3}` that need a copy, 2 is pipelined and 3
assigns a variable. -/
theorem output_indexes_partition_witness :
    (0 : Int) ≤ 4 ∧
    NGraphTensorManager.create true catalogVariablesAndPrefetch "xyz_1" 1 1 7 4 =
      Except.ok expectedVariablesAndPrefetch ∧
    (2 ∈ expectedVariablesAndPrefetch.m_output_indexes_that_need_copy ∧
      2 ∈ expectedVariablesAndPrefetch.m_pipelined_output_indexes) ∧
    (3 ∈ expectedVariablesAndPrefetch.m_output_indexes_that_need_copy ∧
      3 ∈ expectedVariablesAndPrefetch.m_output_indexes_assigning_variable) ∧
    ((expectedVariablesAndPrefetch.m_output_indexes_assigning_variable ++
        expectedVariablesAndPrefetch.m_pipelined_output_indexes).Perm (indexRange 4) ∧
    (∀ j, ¬ (j ∈ expectedVariablesAndPrefetch.m_output_indexes_assigning_variable ∧
      j ∈ expectedVariablesAndPrefetch.m_pipelined_output_indexes)) ∧
    (∀ j, 0 ≤ j → j < 4 →
      (j ∈ expectedVariablesAndPrefetch.m_output_indexes_assigning_variable ∧
        j ∉ expectedVariablesAndPrefetch.m_pipelined_output_indexes) ∨
      (j ∉ expectedVariablesAndPrefetch.m_output_indexes_assigning_variable ∧
        j ∈ expectedVariablesAndPrefetch.m_pipelined_output_indexes)) ∧
    (∀ j, j ∈ expectedVariablesAndPrefetch.m_output_indexes_assigning_variable ∨
        j ∈ expectedVariablesAndPrefetch.m_pipelined_output_indexes → 0 ≤ j ∧ j < 4) ∧
    expectedVariablesAndPrefetch.m_output_indexes_assigning_variable.Nodup ∧
    expectedVariablesAndPrefetch.m_pipelined_output_indexes.Nodup ∧
    (expectedVariablesAndPrefetch.m_output_indexes_assigning_variable.length : Int) +
      (expectedVariablesAndPrefetch.m_pipelined_output_indexes.length : Int) = 4) :=
  ⟨by decide, rfl, by decide, by decide,
    output_indexes_partition true catalogVariablesAndPrefetch "xyz_1" 1 1 7 4
      expectedVariablesAndPrefetch (by decide) rfl⟩

/-- C6: after a successful construction every prefetched input index is a pipelined input
index, and none is an input fed by a variable. -/
theorem prefetched_subset_pipelined (variablesEnabled : Bool) (cat : NGraphCatalog)
    (node_name : String) (cluster_id graph_id number_of_inputs number_of_outputs : Int)
    (tm : NGraphTensorManager)
    (h : NGraphTensorManager.create variablesEnabled cat node_name cluster_id graph_id
      number_of_inputs number_of_outputs = Except.ok tm) :
    (∀ p ∈ tm.m_prefetched_input_indexes, p ∈ tm.m_pipelined_input_indexes) ∧
    (∀ p ∈ tm.m_prefetched_input_indexes, p ∉ tm.m_input_indexes_from_variables) := by
  obtain ⟨hall, rfl⟩ := NGraphTensorManager.create_ok_inv h
  have hsub : ∀ p ∈ List.insertionSort (fun a b => a ≤ b)
        (cat.GetIndexesFromPrefetchedInputIndexMap graph_id node_name),
      p ∈ FindComplement number_of_inputs
        (NGraphTensorManager.variableInputs variablesEnabled cat node_name graph_id
          number_of_inputs) :=
    fun p hp => hall p ((List.perm_insertionSort _ _).mem_iff.1 hp)
  exact ⟨hsub, fun p hp => (mem_FindComplement.1 (hsub p hp)).2⟩

/-- Witness of C6 on the test `VariablesAndPrefetch`: the prefetched input indexes `{3, 6}`
are among the pipelined input indexes `{1, 3, 4, 6}` and outside `{0, 2, 5}`. -/
theorem prefetched_subset_pipelined_witness :
    NGraphTensorManager.create true catalogVariablesAndPrefetch "xyz_1" 1 1 7 4 =
      Except.ok expectedVariablesAndPrefetch ∧
    ((∀ p ∈ expectedVariablesAndPrefetch.m_prefetched_input_indexes,
      p ∈ expectedVariablesAndPrefetch.m_pipelined_input_indexes) ∧
    (∀ p ∈ expectedVariablesAndPrefetch.m_prefetched_input_indexes,
      p ∉ expectedVariablesAndPrefetch.m_input_indexes_from_variables)) :=
  ⟨rfl,
    prefetched_subset_pipelined true catalogVariablesAndPrefetch "xyz_1" 1 1 7 4
      expectedVariablesAndPrefetch rfl⟩

/-- C10: for non-negative input and output counts, construction against the empty catalog
succeeds in either build and yields the pipelined input indexes `0, .., numInputs - 1`, the
pipelined output indexes `0, .., numOutputs - 1`, and empty vectors of inputs fed by
variables, outputs assigning variables, outputs needing a copy, prefetched input indexes and
prefetched positions. -/
theorem create_empty_catalog (variablesEnabled : Bool) (node_name : String)
    (cluster_id graph_id number_of_inputs number_of_outputs : Int)
    (hn : 0 ≤ number_of_inputs) (hm : 0 ≤ number_of_outputs) :
    ∃ tm, NGraphTensorManager.create variablesEnabled NGraphCatalog.empty node_name cluster_id
        graph_id number_of_inputs number_of_outputs = Except.ok tm ∧
      tm.m_pipelined_input_indexes = (List.range number_of_inputs.toNat).map Int.ofNat ∧
      (tm.m_pipelined_input_indexes.length : Int) = number_of_inputs ∧
      (∀ i, i ∈ tm.m_pipelined_input_indexes ↔ 0 ≤ i ∧ i < number_of_inputs) ∧
      tm.m_pipelined_output_indexes = (List.range number_of_outputs.toNat).map Int.ofNat ∧
      (tm.m_pipelined_output_indexes.length : Int) = number_of_outputs ∧
      (∀ j, j ∈ tm.m_pipelined_output_indexes ↔ 0 ≤ j ∧ j < number_of_outputs) ∧
      tm.m_input_indexes_from_variables = [] ∧
      tm.m_output_indexes_assigning_variable = [] ∧
      tm.m_output_indexes_that_need_copy = [] ∧
      tm.m_prefetched_input_indexes = [] ∧
      tm.m_pipelined_input_indexes_prefetched = [] := by
  have hvi : NGraphTensorManager.variableInputs variablesEnabled NGraphCatalog.empty node_name
      graph_id number_of_inputs = [] := by
    cases variablesEnabled <;> simp [NGraphTensorManager.variableInputs, NGraphCatalog.empty]
  have hvo : NGraphTensorManager.variableOutputs variablesEnabled NGraphCatalog.empty node_name
      graph_id number_of_outputs = [] := by
    cases variablesEnabled <;> simp [NGraphTensorManager.variableOutputs, NGraphCatalog.empty]
  have hco : NGraphTensorManager.copyOutputs variablesEnabled NGraphCatalog.empty node_name
      graph_id number_of_outputs = [] := by
    cases variablesEnabled <;> simp [NGraphTensorManager.copyOutputs, NGraphCatalog.empty]
  have hget : NGraphCatalog.empty.GetIndexesFromPrefetchedInputIndexMap graph_id node_name =
      [] := rfl
  have hfc : ∀ n : Int, FindComplement n [] = indexRange n := by
    intro n
    rw [FindComplement_eq_filter]
    simp
  have hall : ∀ p ∈ NGraphCatalog.empty.GetIndexesFromPrefetchedInputIndexMap graph_id
        node_name,
      p ∈ FindComplement number_of_inputs
        (NGraphTensorManager.variableInputs variablesEnabled NGraphCatalog.empty node_name
          graph_id number_of_inputs) := by
    intro p hp
    rw [hget] at hp
    cases hp
  refine ⟨_, NGraphTensorManager.create_ok_of_forall_mem _ _ _ _ _ _ _ hall,
    ?_, ?_, ?_, ?_, ?_, ?_, ?_, ?_, ?_, ?_, ?_⟩
  · simp [NGraphTensorManager.beforeLocate, hvi, hfc, indexRange]
  · simp only [NGraphTensorManager.beforeLocate, hvi, hfc, length_indexRange]
    omega
  · intro i
    simp only [NGraphTensorManager.beforeLocate, hvi, hfc]
    exact mem_indexRange
  · simp [NGraphTensorManager.beforeLocate, hvo, hfc, indexRange]
  · simp only [NGraphTensorManager.beforeLocate, hvo, hfc, length_indexRange]
    omega
  · intro j
    simp only [NGraphTensorManager.beforeLocate, hvo, hfc]
    exact mem_indexRange
  · simp [NGraphTensorManager.beforeLocate, hvi]
  · simp [NGraphTensorManager.beforeLocate, hvo]
  · simp [NGraphTensorManager.beforeLocate, hco]
  · simp [NGraphTensorManager.beforeLocate, hget]
  · simp [NGraphTensorManager.beforeLocate, hget]

/-- Witness of C10 on the test `NoVariablesNoPrefetch`: 5 inputs and 2 outputs give the
pipelined input indexes `{0,1,2,3,4}` and the pipelined output indexes `{0,1}`. -/
theorem create_empty_catalog_witness :
    NGraphTensorManager.create true NGraphCatalog.empty "xyz_1" 1 1 5 2 =
      Except.ok
        { m_ng_encap_node_name := "xyz_1"
          m_ng_encap_cluster_id := 1
          m_ng_encap_graph_id := 1
          m_number_of_inputs := 5
          m_number_of_outputs := 2
          m_pipelined_input_indexes := [0, 1, 2, 3, 4]
          m_pipelined_output_indexes := [0, 1] } ∧
    ∃ tm, NGraphTensorManager.create true NGraphCatalog.empty "xyz_1" 1 1 5 2 = Except.ok tm ∧
      tm.m_pipelined_input_indexes = (List.range (5 : Int).toNat).map Int.ofNat ∧
      (tm.m_pipelined_input_indexes.length : Int) = 5 ∧
      (∀ i, i ∈ tm.m_pipelined_input_indexes ↔ 0 ≤ i ∧ i < 5) ∧
      tm.m_pipelined_output_indexes = (List.range (2 : Int).toNat).map Int.ofNat ∧
      (tm.m_pipelined_output_indexes.length : Int) = 2 ∧
      (∀ j, j ∈ tm.m_pipelined_output_indexes ↔ 0 ≤ j ∧ j < 2) ∧
      tm.m_input_indexes_from_variables = [] ∧
      tm.m_output_indexes_assigning_variable = [] ∧
      tm.m_output_indexes_that_need_copy = [] ∧
      tm.m_prefetched_input_indexes = [] ∧
      tm.m_pipelined_input_indexes_prefetched = [] :=
  ⟨rfl, create_empty_catalog true "xyz_1" 1 1 5 2 (by decide) (by decide)⟩

/-! ## The shared resource -/

/-- C7: the code does not reject a second, different depth.  `SetBufferDepth` stores
whatever depth it is given, so after `SetBufferDepth(2)` and `SetBufferDepth(3)` on a new
resource `GetBufferDepth` returns 3, not 2. -/
theorem SetBufferDepth_replaces_stored_depth :
    (∀ (self : NGraphPrefetchSharedResouce) (d1 d2 : Int),
      ((self.SetBufferDepth d1).SetBufferDepth d2).m_prefetch_buffer_depth = d2) ∧
    (((NGraphPrefetchSharedResouce.create "xyz_1" "CPU" 1 1).SetBufferDepth 2).SetBufferDepth
      3).GetBufferDepth = some 3 ∧
    ((NGraphPrefetchSharedResouce.create "xyz_1" "CPU" 1 1).SetBufferDepth 2).GetBufferDepth =
      some 2 :=
  ⟨fun _ _ _ => rfl, by decide, by decide⟩

/-- C8, as stated, fails at `d = -1`: after `SetBufferDepth(-1)` on a new resource the stored
depth is the value that means unset, and `GetBufferDepth` still blocks instead of returning
`-1`. -/
theorem GetBufferDepth_blocks_after_SetBufferDepth_minus_one :
    ((NGraphPrefetchSharedResouce.create "xyz_1" "CPU" 1 1).SetBufferDepth (-1)).GetBufferDepth =
      none ∧
    ((NGraphPrefetchSharedResouce.create "xyz_1" "CPU" 1 1).SetBufferDepth (-1)).GetBufferDepth ≠
      some (-1) :=
  ⟨by decide, by decide⟩

/-- C8, amended: on a new resource `GetBufferDepth` blocks; for every integer `d` other than
`-1`, once `SetBufferDepth(d)` has been called on any resource `GetBufferDepth` does not block
and returns `d`; after `SetBufferDepth(-1)` it blocks; and `GetBufferDepth` never returns
`-1`. -/
theorem GetBufferDepth_after_SetBufferDepth (ng_enc_op_name backend_name : String)
    (cluster_id graph_id : Int) (self : NGraphPrefetchSharedResouce) (d : Int) (hd : d ≠ -1) :
    (NGraphPrefetchSharedResouce.create ng_enc_op_name backend_name cluster_id
      graph_id).m_prefetch_buffer_depth = -1 ∧
    (NGraphPrefetchSharedResouce.create ng_enc_op_name backend_name cluster_id
      graph_id).GetBufferDepth = none ∧
    (self.SetBufferDepth d).GetBufferDepth = some d ∧
    (self.SetBufferDepth (-1)).GetBufferDepth = none ∧
    (∀ s : NGraphPrefetchSharedResouce, s.GetBufferDepth ≠ some (-1)) := by
  refine ⟨rfl, rfl, ?_, ?_, ?_⟩
  · simp [NGraphPrefetchSharedResouce.SetBufferDepth,
      NGraphPrefetchSharedResouce.GetBufferDepth, hd]
  · simp [NGraphPrefetchSharedResouce.SetBufferDepth,
      NGraphPrefetchSharedResouce.GetBufferDepth]
  · intro s hs
    unfold NGraphPrefetchSharedResouce.GetBufferDepth at hs
    by_cases h : s.m_prefetch_buffer_depth = -1
    · simp [h] at hs
    · simp only [h, if_false] at hs
      exact h (Option.some.inj hs)

/-- Witness of the amended C8: the depth 2 set on a new resource. -/
theorem GetBufferDepth_after_SetBufferDepth_witness :
    (2 : Int) ≠ -1 ∧
    ((NGraphPrefetchSharedResouce.create "xyz_1" "CPU" 1 1).m_prefetch_buffer_depth = -1 ∧
    (NGraphPrefetchSharedResouce.create "xyz_1" "CPU" 1 1).GetBufferDepth = none ∧
    ((NGraphPrefetchSharedResouce.create "xyz_1" "CPU" 1 1).SetBufferDepth 2).GetBufferDepth =
      some 2 ∧
    ((NGraphPrefetchSharedResouce.create "xyz_1" "CPU" 1 1).SetBufferDepth (-1)).GetBufferDepth =
      none ∧
    (∀ s : NGraphPrefetchSharedResouce, s.GetBufferDepth ≠ some (-1))) :=
  ⟨by decide,
    GetBufferDepth_after_SetBufferDepth "xyz_1" "CPU" 1 1
      (NGraphPrefetchSharedResouce.create "xyz_1" "CPU" 1 1) 2 (by decide)⟩

/-- C9: for each of the two queues of the resource, when the queue is empty and the bundles
`b1 .. bk` are pushed in that order, `k` consecutive pops return exactly `b1 .. bk` in that
order, ids and tensor handles unchanged, none of them blocks, the resource is then as it was
before the pushes, and a further pop blocks. -/
theorem queue_push_pop_fifo (self : NGraphPrefetchSharedResouce)
    (bundles : List InputTensorBundle) :
    (self.m_tf_2_ng.m_queue = [] →
      NGraphPrefetchSharedResouce.popMany
          NGraphPrefetchSharedResouce.GetNextInputTensorBundleForDeviceTransfer bundles.length
          (NGraphPrefetchSharedResouce.pushAll
            NGraphPrefetchSharedResouce.AddNextInputTensorBundleForDeviceTransfer self bundles) =
        some (bundles, self) ∧
      self.GetNextInputTensorBundleForDeviceTransfer = none) ∧
    (self.m_ng_2_tf.m_queue = [] →
      NGraphPrefetchSharedResouce.popMany
          NGraphPrefetchSharedResouce.GetNextInputTensorBundleReadyForDeviceExecution
          bundles.length
          (NGraphPrefetchSharedResouce.pushAll
            NGraphPrefetchSharedResouce.AddNextInputTensorBundleReadyForDeviceExecution self
            bundles) =
        some (bundles, self) ∧
      self.GetNextInputTensorBundleReadyForDeviceExecution = none) := by
  constructor
  · intro h
    constructor
    · rw [NGraphPrefetchSharedResouce.pushAll_ForDeviceTransfer,
        NGraphPrefetchSharedResouce.popMany_ForDeviceTransfer bundles [] _ (by simp [h])]
      cases self with
      | mk a b c d q1 q2 e f =>
        cases q1 with
        | mk l =>
          simp only at h
          subst h
          rfl
    · simp [NGraphPrefetchSharedResouce.GetNextInputTensorBundleForDeviceTransfer,
        ThreadSafeQueue.GetNextAvailable, h]
  · intro h
    constructor
    · rw [NGraphPrefetchSharedResouce.pushAll_ReadyForDeviceExecution,
        NGraphPrefetchSharedResouce.popMany_ReadyForDeviceExecution bundles [] _ (by simp [h])]
      cases self with
      | mk a b c d q1 q2 e f =>
        cases q2 with
        | mk l =>
          simp only at h
          subst h
          rfl
    · simp [NGraphPrefetchSharedResouce.GetNextInputTensorBundleReadyForDeviceExecution,
        ThreadSafeQueue.GetNextAvailable, h]

/-- Witness of C9: the bundles with ids 1, 2, 3 pushed onto either queue of a new resource
are popped as 1, 2, 3. -/
theorem queue_push_pop_fifo_witness :
    (NGraphPrefetchSharedResouce.create "xyz_1" "CPU" 1 1).m_tf_2_ng.m_queue = [] ∧
    (NGraphPrefetchSharedResouce.create "xyz_1" "CPU" 1 1).m_ng_2_tf.m_queue = [] ∧
    NGraphPrefetchSharedResouce.popMany
        NGraphPrefetchSharedResouce.GetNextInputTensorBundleForDeviceTransfer 3
        (NGraphPrefetchSharedResouce.pushAll
          NGraphPrefetchSharedResouce.AddNextInputTensorBundleForDeviceTransfer
          (NGraphPrefetchSharedResouce.create "xyz_1" "CPU" 1 1)
          [⟨1, [10, 11]⟩, ⟨2, [20, 21]⟩, ⟨3, [30, 31]⟩]) =
      some ([⟨1, [10, 11]⟩, ⟨2, [20, 21]⟩, ⟨3, [30, 31]⟩],
        NGraphPrefetchSharedResouce.create "xyz_1" "CPU" 1 1) ∧
    NGraphPrefetchSharedResouce.popMany
        NGraphPrefetchSharedResouce.GetNextInputTensorBundleReadyForDeviceExecution 3
        (NGraphPrefetchSharedResouce.pushAll
          NGraphPrefetchSharedResouce.AddNextInputTensorBundleReadyForDeviceExecution
          (NGraphPrefetchSharedResouce.create "xyz_1" "CPU" 1 1)
          [⟨1, [10, 11]⟩, ⟨2, [20, 21]⟩, ⟨3, [30, 31]⟩]) =
      some ([⟨1, [10, 11]⟩, ⟨2, [20, 21]⟩, ⟨3, [30, 31]⟩],
        NGraphPrefetchSharedResouce.create "xyz_1" "CPU" 1 1) :=
  ⟨rfl, rfl,
    ((queue_push_pop_fifo (NGraphPrefetchSharedResouce.create "xyz_1" "CPU" 1 1)
      [⟨1, [10, 11]⟩, ⟨2, [20, 21]⟩, ⟨3, [30, 31]⟩]).1 rfl).1,
    ((queue_push_pop_fifo (NGraphPrefetchSharedResouce.create "xyz_1" "CPU" 1 1)
      [⟨1, [10, 11]⟩, ⟨2, [20, 21]⟩, ⟨3, [30, 31]⟩]).2 rfl).1⟩

/-! ## The prefetched input indexes -/

theorem ofNat_indexOf_indexRange {n p : Int} (hp : p ∈ indexRange n) :
    Int.ofNat ((indexRange n).indexOf p) = p := by
  have hr := mem_indexRange.1 hp
  have hlt : p.toNat < (indexRange n).length := by
    rw [length_indexRange]
    omega
  have hget : (indexRange n)[p.toNat] = p := by
    simp only [indexRange, List.getElem_map, List.getElem_range]
    show ((p.toNat : Nat) : Int) = p
    omega
  have hidx := List.indexOf_getElem (sorted_indexRange n).nodup p.toNat hlt
  rw [hget] at hidx
  rw [hidx]
  show ((p.toNat : Nat) : Int) = p
  omega

theorem FindComplement_nil (n : Int) : FindComplement n [] = indexRange n := by
  rw [FindComplement_eq_filter]
  simp

theorem sorted_lt_insertionSort_of_nodup {S : List Int} (hS : S.Nodup) :
    (List.insertionSort (fun a b => a ≤ b) S).Sorted (fun a b => a < b) :=
  (List.sorted_insertionSort (fun a b => a ≤ b) S).lt_of_le
    ((List.perm_insertionSort _ S).nodup_iff.2 hS)

theorem insertionSort_eq_of_perm {S T : List Int} (h : S.Perm T) :
    List.insertionSort (fun a b => a ≤ b) S = List.insertionSort (fun a b => a ≤ b) T :=
  List.eq_of_perm_of_sorted
    (((List.perm_insertionSort _ S).trans h).trans (List.perm_insertionSort _ T).symm)
    (List.sorted_insertionSort _ S) (List.sorted_insertionSort _ T)

namespace NGraphTensorManager

theorem prefetchPositionStep_pipelined {s s1 : NGraphTensorManager} {p : Int}
    (h : prefetchPositionStep s p = Except.ok s1) :
    s1.m_pipelined_input_indexes = s.m_pipelined_input_indexes := by
  unfold prefetchPositionStep at h
  by_cases he : List.indexOf p s.m_pipelined_input_indexes = s.m_pipelined_input_indexes.length
  · simp [he] at h
  · simp only [he, if_false] at h
    rw [← Except.ok.inj h]

theorem locatePrefetched_error_inv (l : List Int) (s : NGraphTensorManager) (msg : String)
    (h : locatePrefetched l s = Except.error msg) :
    ∃ pre a post, l = pre ++ a :: post ∧
      (∀ x ∈ pre, x ∈ s.m_pipelined_input_indexes) ∧
      a ∉ s.m_pipelined_input_indexes ∧
      msg = "Prefetched input index " ++ toString a ++ " not found in pipelined inputs." := by
  induction l generalizing s with
  | nil => simp [locatePrefetched] at h
  | cons b t ih =>
    by_cases hb : b ∈ s.m_pipelined_input_indexes
    · have hne : List.indexOf b s.m_pipelined_input_indexes ≠
          s.m_pipelined_input_indexes.length :=
        fun e => (List.indexOf_eq_length.1 e) hb
      simp only [locatePrefetched, prefetchPositionStep, hne, if_false] at h
      obtain ⟨pre, a, post, hl, hpre, ha, hmsg⟩ := ih _ h
      refine ⟨b :: pre, a, post, by rw [hl]; rfl, ?_, ha, hmsg⟩
      intro x hx
      rcases List.mem_cons.1 hx with rfl | hx
      · exact hb
      · exact hpre x hx
    · have he : List.indexOf b s.m_pipelined_input_indexes =
          s.m_pipelined_input_indexes.length := List.indexOf_eq_length.2 hb
      simp only [locatePrefetched, prefetchPositionStep, he, if_true] at h
      exact ⟨[], b, t, rfl, fun x hx => absurd hx (List.not_mem_nil x), hb,
        (Except.error.inj h).symm⟩

end NGraphTensorManager

/-! ## The catalog-derived role sets -/

/-- C11, as stated, fails in a build without variables: with the catalog of the test
`HasVariablesNoPrefetch`, which marks input 0 as fed by a variable, output 0 as assigning a
variable and output 1 as needing a copy, the constructed object records no input fed by a
variable, no output assigning a variable and no output needing a copy. -/
theorem variable_sets_empty_without_variables_build :
    NGraphTensorManager.create false catalogHasVariablesNoPrefetch "xyz_1" 1 1 5 2 =
      Except.ok expectedNoVariablesNoPrefetch ∧
    catalogHasVariablesNoPrefetch.ExistsInInputVariableSharedNameMap 1 "xyz_1" 0 = true ∧
    (0 : Int) ∉ expectedNoVariablesNoPrefetch.m_input_indexes_from_variables ∧
    catalogHasVariablesNoPrefetch.ExistsInEncapOutputInfoMap 1 "xyz_1" 0 = true ∧
    (0 : Int) ∉ expectedNoVariablesNoPrefetch.m_output_indexes_assigning_variable ∧
    catalogHasVariablesNoPrefetch.EncapOutputIndexNeedsCopy 1 "xyz_1" 1 = true ∧
    (1 : Int) ∉ expectedNoVariablesNoPrefetch.m_output_indexes_that_need_copy :=
  ⟨rfl, by decide, by decide, by decide, by decide, by decide, by decide⟩

/-- C11, amended: after a successful construction in a build with variables, the inputs fed
by variables are exactly the indexes of `[0, numInputs)` that the catalog marks as fed by a
variable, in strictly ascending order, and likewise the outputs assigning variables and the
outputs needing a copy are exactly the indexes of `[0, numOutputs)` that the catalog marks,
in strictly ascending order. -/
theorem variable_sets_follow_catalog (cat : NGraphCatalog) (node_name : String)
    (cluster_id graph_id number_of_inputs number_of_outputs : Int) (tm : NGraphTensorManager)
    (h : NGraphTensorManager.create true cat node_name cluster_id graph_id number_of_inputs
      number_of_outputs = Except.ok tm) :
    (tm.m_input_indexes_from_variables.Sorted (fun a b => a < b) ∧
      ∀ i, i ∈ tm.m_input_indexes_from_variables ↔
        (0 ≤ i ∧ i < number_of_inputs) ∧
          cat.ExistsInInputVariableSharedNameMap graph_id node_name i = true) ∧
    (tm.m_output_indexes_assigning_variable.Sorted (fun a b => a < b) ∧
      ∀ j, j ∈ tm.m_output_indexes_assigning_variable ↔
        (0 ≤ j ∧ j < number_of_outputs) ∧
          cat.ExistsInEncapOutputInfoMap graph_id node_name j = true) ∧
    (tm.m_output_indexes_that_need_copy.Sorted (fun a b => a < b) ∧
      ∀ j, j ∈ tm.m_output_indexes_that_need_copy ↔
        (0 ≤ j ∧ j < number_of_outputs) ∧
          cat.EncapOutputIndexNeedsCopy graph_id node_name j = true) := by
  obtain ⟨_, rfl⟩ := NGraphTensorManager.create_ok_inv h
  simp only [NGraphTensorManager.beforeLocate, NGraphTensorManager.variableInputs,
    NGraphTensorManager.variableOutputs, NGraphTensorManager.copyOutputs, if_true]
  refine ⟨⟨(sorted_indexRange _).filter _, fun i => ?_⟩,
    ⟨(sorted_indexRange _).filter _, fun j => ?_⟩,
    ⟨(sorted_indexRange _).filter _, fun j => ?_⟩⟩
  · rw [List.mem_filter, mem_indexRange]
  · rw [List.mem_filter, mem_indexRange]
  · rw [List.mem_filter, mem_indexRange]

/-- Witness of the amended C11 on the variables-present scenario: 5 inputs and 2 outputs,
inputs `{0, 2}` fed by variables and output `{0}` assigning a variable and needing a copy
give the pipelined inputs `{1, 3, 4}`, the pipelined outputs `{1}` and the outputs needing a
copy `{0}`. -/
theorem variable_sets_follow_catalog_witness :
    NGraphTensorManager.create true catalogVariablesPresent "xyz_1" 1 1 5 2 =
      Except.ok expectedVariablesPresent ∧
    expectedVariablesPresent.m_pipelined_input_indexes = [1, 3, 4] ∧
    expectedVariablesPresent.m_pipelined_output_indexes = [1] ∧
    expectedVariablesPresent.m_output_indexes_that_need_copy = [0] ∧
    ((expectedVariablesPresent.m_input_indexes_from_variables.Sorted (fun a b => a < b) ∧
      ∀ i, i ∈ expectedVariablesPresent.m_input_indexes_from_variables ↔
        (0 ≤ i ∧ i < 5) ∧
          catalogVariablesPresent.ExistsInInputVariableSharedNameMap 1 "xyz_1" i = true) ∧
    (expectedVariablesPresent.m_output_indexes_assigning_variable.Sorted (fun a b => a < b) ∧
      ∀ j, j ∈ expectedVariablesPresent.m_output_indexes_assigning_variable ↔
        (0 ≤ j ∧ j < 2) ∧
          catalogVariablesPresent.ExistsInEncapOutputInfoMap 1 "xyz_1" j = true) ∧
    (expectedVariablesPresent.m_output_indexes_that_need_copy.Sorted (fun a b => a < b) ∧
      ∀ j, j ∈ expectedVariablesPresent.m_output_indexes_that_need_copy ↔
        (0 ≤ j ∧ j < 2) ∧
          catalogVariablesPresent.EncapOutputIndexNeedsCopy 1 "xyz_1" j = true)) :=
  ⟨rfl, rfl, rfl, rfl,
    variable_sets_follow_catalog catalogVariablesPresent "xyz_1" 1 1 5 2
      expectedVariablesPresent rfl⟩

/-- C12: `FindComplement` is a total function and ignores the entries of `S` outside
`[0, n)`: for every `n`, in particular every `n >= 0`, and every sequence `S` of integers,
`FindComplement(n, S)` is the value of `FindComplement(n, S')` for `S'` the entries of `S`
that lie in `[0, n)`; and `FindComplement(5, {-1, 3, 5}) = {0, 1, 2, 4}`. -/
theorem FindComplement_ignores_out_of_range (n : Int) (S : List Int) :
    FindComplement n S = FindComplement n (S.filter (fun x => decide (0 ≤ x ∧ x < n))) ∧
    FindComplement 5 [-1, 3, 5] = [0, 1, 2, 4] ∧
    FindComplement 5 [-1, 3, 5] = FindComplement 5 [3] := by
  refine ⟨?_, by decide, by decide⟩
  rw [FindComplement_eq_filter, FindComplement_eq_filter]
  apply List.filter_congr
  intro x hx
  have hr := mem_indexRange.1 hx
  by_cases hxS : x ∈ S
  · simp [List.mem_filter, hxS, hr.1, hr.2]
  · simp [List.mem_filter, hxS]

/-- C13: after a successful construction, when a prefetch-eligible index set is registered
for the node (an `unordered_set`, so its enumeration repeats no member), the prefetched input
indexes hold exactly its members, each once, in strictly ascending order; they are the sorted
list of the set, the same for every catalog that enumerates the same members in another
order; when no set is registered for the node they are empty. -/
theorem prefetched_input_is_sorted_registered_set (variablesEnabled : Bool)
    (cat : NGraphCatalog) (node_name : String)
    (cluster_id graph_id number_of_inputs number_of_outputs : Int) (tm : NGraphTensorManager)
    (h : NGraphTensorManager.create variablesEnabled cat node_name cluster_id graph_id
      number_of_inputs number_of_outputs = Except.ok tm) :
    (∀ S, cat.prefetched_input_index_map_ graph_id node_name = some S → S.Nodup →
      tm.m_prefetched_input_indexes.Sorted (fun a b => a < b) ∧
      (∀ i, i ∈ tm.m_prefetched_input_indexes ↔ i ∈ S) ∧
      tm.m_prefetched_input_indexes.Perm S ∧
      tm.m_prefetched_input_indexes = Finset.sort (fun a b => a ≤ b) S.toFinset ∧
      ∀ (cat2 : NGraphCatalog) (S2 : List Int) (tm2 : NGraphTensorManager),
        cat2.prefetched_input_index_map_ graph_id node_name = some S2 → S2.Perm S →
        NGraphTensorManager.create variablesEnabled cat2 node_name cluster_id graph_id
          number_of_inputs number_of_outputs = Except.ok tm2 →
        tm2.m_prefetched_input_indexes = tm.m_prefetched_input_indexes) ∧
    (cat.prefetched_input_index_map_ graph_id node_name = none →
      tm.m_prefetched_input_indexes = []) := by
  obtain ⟨_, rfl⟩ := NGraphTensorManager.create_ok_inv h
  simp only [NGraphTensorManager.beforeLocate,
    NGraphCatalog.GetIndexesFromPrefetchedInputIndexMap]
  constructor
  · intro S hS hnd
    rw [hS]
    simp only [Option.getD_some]
    refine ⟨sorted_lt_insertionSort_of_nodup hnd,
      fun i => (List.perm_insertionSort _ S).mem_iff, List.perm_insertionSort _ S, ?_, ?_⟩
    · apply List.eq_of_perm_of_sorted (r := fun a b : Int => a ≤ b)
      · exact ((List.perm_insertionSort _ S).trans (List.toFinset_toList hnd).symm).trans
          (Finset.sort_perm_toList _ _).symm
      · exact List.sorted_insertionSort _ S
      · exact Finset.sort_sorted _ _
    · intro cat2 S2 tm2 hS2 hperm h2
      obtain ⟨_, rfl⟩ := NGraphTensorManager.create_ok_inv h2
      simp only [NGraphTensorManager.beforeLocate,
        NGraphCatalog.GetIndexesFromPrefetchedInputIndexMap, hS2, Option.getD_some]
      exact insertionSort_eq_of_perm hperm
  · intro hnone
    rw [hnone]
    rfl

/-- Witness of C13 on the test `NoVariablesHasPrefetch`: the registered set `{1, 3}`,
enumerated as `3, 1`, gives the prefetched input indexes `{1, 3}`; with the empty catalog
they are empty. -/
theorem prefetched_input_is_sorted_registered_set_witness :
    NGraphTensorManager.create false catalogNoVariablesHasPrefetchReversed "xyz_1" 1 1 5 2 =
      Except.ok expectedNoVariablesHasPrefetch ∧
    catalogNoVariablesHasPrefetchReversed.prefetched_input_index_map_ 1 "xyz_1" =
      some [3, 1] ∧
    ([3, 1] : List Int).Nodup ∧
    expectedNoVariablesHasPrefetch.m_prefetched_input_indexes = [1, 3] ∧
    NGraphTensorManager.create false NGraphCatalog.empty "xyz_1" 1 1 5 2 =
      Except.ok expectedNoVariablesNoPrefetch ∧
    NGraphCatalog.empty.prefetched_input_index_map_ 1 "xyz_1" = none ∧
    expectedNoVariablesNoPrefetch.m_prefetched_input_indexes = [] ∧
    (expectedNoVariablesHasPrefetch.m_prefetched_input_indexes.Sorted (fun a b => a < b) ∧
      (∀ i, i ∈ expectedNoVariablesHasPrefetch.m_prefetched_input_indexes ↔
        i ∈ ([3, 1] : List Int)) ∧
      expectedNoVariablesHasPrefetch.m_prefetched_input_indexes.Perm [3, 1]) :=
  ⟨rfl, rfl, by decide, rfl, rfl, rfl,
    (prefetched_input_is_sorted_registered_set false NGraphCatalog.empty "xyz_1" 1 1 5 2
      expectedNoVariablesNoPrefetch rfl).2 rfl,
    ((prefetched_input_is_sorted_registered_set false catalogNoVariablesHasPrefetchReversed
        "xyz_1" 1 1 5 2 expectedNoVariablesHasPrefetch rfl).1 [3, 1] rfl (by decide)).1,
    ((prefetched_input_is_sorted_registered_set false catalogNoVariablesHasPrefetchReversed
        "xyz_1" 1 1 5 2 expectedNoVariablesHasPrefetch rfl).1 [3, 1] rfl (by decide)).2.1,
    ((prefetched_input_is_sorted_registered_set false catalogNoVariablesHasPrefetchReversed
        "xyz_1" 1 1 5 2 expectedNoVariablesHasPrefetch rfl).1 [3, 1] rfl (by decide)).2.2.1⟩

/-- C14: when a successful construction records no input fed by a variable, the prefetched
positions are the prefetched input indexes, element for element. -/
theorem prefetched_position_identity_without_variables (variablesEnabled : Bool)
    (cat : NGraphCatalog) (node_name : String)
    (cluster_id graph_id number_of_inputs number_of_outputs : Int) (tm : NGraphTensorManager)
    (h : NGraphTensorManager.create variablesEnabled cat node_name cluster_id graph_id
      number_of_inputs number_of_outputs = Except.ok tm)
    (hfed : tm.m_input_indexes_from_variables = []) :
    tm.m_pipelined_input_indexes_prefetched = tm.m_prefetched_input_indexes := by
  obtain ⟨hall, rfl⟩ := NGraphTensorManager.create_ok_inv h
  simp only [NGraphTensorManager.beforeLocate] at hfed ⊢
  rw [hfed, FindComplement_nil] at hall
  rw [hfed, FindComplement_nil]
  have hid : ∀ p ∈ List.insertionSort (fun a b => a ≤ b)
        (cat.GetIndexesFromPrefetchedInputIndexMap graph_id node_name),
      Int.ofNat ((indexRange number_of_inputs).indexOf p) = id p := fun p hp =>
    ofNat_indexOf_indexRange (hall p ((List.perm_insertionSort _ _).mem_iff.1 hp))
  rw [List.map_congr_left hid, List.map_id]

/-- Witness of C14 on the test `NoVariablesHasPrefetch`: 5 inputs and the prefetch-eligible
set `{1, 3}` give the prefetched input indexes `{1, 3}` and the positions `{1, 3}`. -/
theorem prefetched_position_identity_without_variables_witness :
    NGraphTensorManager.create true catalogNoVariablesHasPrefetch "xyz_1" 1 1 5 2 =
      Except.ok expectedNoVariablesHasPrefetch ∧
    expectedNoVariablesHasPrefetch.m_input_indexes_from_variables = [] ∧
    expectedNoVariablesHasPrefetch.m_prefetched_input_indexes = [1, 3] ∧
    expectedNoVariablesHasPrefetch.m_pipelined_input_indexes_prefetched = [1, 3] ∧
    expectedNoVariablesHasPrefetch.m_pipelined_input_indexes_prefetched =
      expectedNoVariablesHasPrefetch.m_prefetched_input_indexes :=
  ⟨rfl, rfl, rfl, rfl,
    prefetched_position_identity_without_variables true catalogNoVariablesHasPrefetch "xyz_1"
      1 1 5 2 expectedNoVariablesHasPrefetch rfl rfl⟩

/-- C15: after a successful construction, the inputs fed by variables, the pipelined inputs
and the prefetched inputs are strictly ascending with every element in `[0, numInputs)`, and
the outputs assigning variables, the pipelined outputs and the outputs needing a copy are
strictly ascending with every element in `[0, numOutputs)`.  The registered prefetch-eligible
set is an `unordered_set`, so its enumeration repeats no member. -/
theorem role_sets_are_index_sets (variablesEnabled : Bool) (cat : NGraphCatalog)
    (node_name : String) (cluster_id graph_id number_of_inputs number_of_outputs : Int)
    (tm : NGraphTensorManager)
    (hset : ∀ S, cat.prefetched_input_index_map_ graph_id node_name = some S → S.Nodup)
    (h : NGraphTensorManager.create variablesEnabled cat node_name cluster_id graph_id
      number_of_inputs number_of_outputs = Except.ok tm) :
    (tm.m_input_indexes_from_variables.Sorted (fun a b => a < b) ∧
      ∀ i ∈ tm.m_input_indexes_from_variables, 0 ≤ i ∧ i < number_of_inputs) ∧
    (tm.m_pipelined_input_indexes.Sorted (fun a b => a < b) ∧
      ∀ i ∈ tm.m_pipelined_input_indexes, 0 ≤ i ∧ i < number_of_inputs) ∧
    (tm.m_prefetched_input_indexes.Sorted (fun a b => a < b) ∧
      ∀ i ∈ tm.m_prefetched_input_indexes, 0 ≤ i ∧ i < number_of_inputs) ∧
    (tm.m_output_indexes_assigning_variable.Sorted (fun a b => a < b) ∧
      ∀ j ∈ tm.m_output_indexes_assigning_variable, 0 ≤ j ∧ j < number_of_outputs) ∧
    (tm.m_pipelined_output_indexes.Sorted (fun a b => a < b) ∧
      ∀ j ∈ tm.m_pipelined_output_indexes, 0 ≤ j ∧ j < number_of_outputs) ∧
    (tm.m_output_indexes_that_need_copy.Sorted (fun a b => a < b) ∧
      ∀ j ∈ tm.m_output_indexes_that_need_copy, 0 ≤ j ∧ j < number_of_outputs) := by
  obtain ⟨hall, rfl⟩ := NGraphTensorManager.create_ok_inv h
  have hfilter : ∀ (n : Int) (p : Int → Bool),
      ((indexRange n).filter p).Sorted (fun a b => a < b) ∧
        ∀ i ∈ (indexRange n).filter p, 0 ≤ i ∧ i < n := fun n p =>
    ⟨(sorted_indexRange n).filter p, fun i hi => mem_indexRange.1 (List.mem_filter.1 hi).1⟩
  have hnd : (cat.GetIndexesFromPrefetchedInputIndexMap graph_id node_name).Nodup := by
    unfold NGraphCatalog.GetIndexesFromPrefetchedInputIndexMap
    cases hS : cat.prefetched_input_index_map_ graph_id node_name with
    | none => exact List.nodup_nil
    | some S => exact hset S hS
  simp only [NGraphTensorManager.beforeLocate]
  refine ⟨?_, ⟨sorted_FindComplement _ _, fun i hi => (mem_FindComplement.1 hi).1⟩,
    ⟨sorted_lt_insertionSort_of_nodup hnd, fun i hi => ?_⟩, ?_,
    ⟨sorted_FindComplement _ _, fun j hj => (mem_FindComplement.1 hj).1⟩, ?_⟩
  · rw [variableInputs_eq_filter]
    exact hfilter _ _
  · exact (mem_FindComplement.1 (hall i ((List.perm_insertionSort _ _).mem_iff.1 hi))).1
  · rw [variableOutputs_eq_filter]
    exact hfilter _ _
  · unfold NGraphTensorManager.copyOutputs
    cases variablesEnabled with
    | false => exact ⟨List.sorted_nil, fun j hj => absurd hj (List.not_mem_nil j)⟩
    | true => exact hfilter _ _

/-- Witness of C15 on the test `VariablesAndPrefetch`, 7 inputs and 4 outputs. -/
theorem role_sets_are_index_sets_witness :
    (∀ S, catalogVariablesAndPrefetch.prefetched_input_index_map_ 1 "xyz_1" = some S →
      S.Nodup) ∧
    NGraphTensorManager.create true catalogVariablesAndPrefetch "xyz_1" 1 1 7 4 =
      Except.ok expectedVariablesAndPrefetch ∧
    ((expectedVariablesAndPrefetch.m_input_indexes_from_variables.Sorted (fun a b => a < b) ∧
      ∀ i ∈ expectedVariablesAndPrefetch.m_input_indexes_from_variables, 0 ≤ i ∧ i < 7) ∧
    (expectedVariablesAndPrefetch.m_pipelined_input_indexes.Sorted (fun a b => a < b) ∧
      ∀ i ∈ expectedVariablesAndPrefetch.m_pipelined_input_indexes, 0 ≤ i ∧ i < 7) ∧
    (expectedVariablesAndPrefetch.m_prefetched_input_indexes.Sorted (fun a b => a < b) ∧
      ∀ i ∈ expectedVariablesAndPrefetch.m_prefetched_input_indexes, 0 ≤ i ∧ i < 7) ∧
    (expectedVariablesAndPrefetch.m_output_indexes_assigning_variable.Sorted
        (fun a b => a < b) ∧
      ∀ j ∈ expectedVariablesAndPrefetch.m_output_indexes_assigning_variable, 0 ≤ j ∧ j < 4) ∧
    (expectedVariablesAndPrefetch.m_pipelined_output_indexes.Sorted (fun a b => a < b) ∧
      ∀ j ∈ expectedVariablesAndPrefetch.m_pipelined_output_indexes, 0 ≤ j ∧ j < 4) ∧
    (expectedVariablesAndPrefetch.m_output_indexes_that_need_copy.Sorted (fun a b => a < b) ∧
      ∀ j ∈ expectedVariablesAndPrefetch.m_output_indexes_that_need_copy, 0 ≤ j ∧ j < 4)) :=
  have hset : ∀ S, catalogVariablesAndPrefetch.prefetched_input_index_map_ 1 "xyz_1" =
      some S → S.Nodup := fun S hS => by
    have h36 : catalogVariablesAndPrefetch.prefetched_input_index_map_ 1 "xyz_1" =
        some [3, 6] := rfl
    rw [h36] at hS
    rw [← Option.some.inj hS]
    decide
  ⟨hset, rfl,
    role_sets_are_index_sets true catalogVariablesAndPrefetch "xyz_1" 1 1 7 4
      expectedVariablesAndPrefetch hset rfl⟩

/-! ## The error of a refused construction -/

/-- C19: when the construction throws, the message is
"Prefetched input index <i> not found in pipelined inputs." with `<i>` the decimal form of a
member of the registered prefetch-eligible set that is not a pipelined input index, namely
the smallest such member. -/
theorem create_error_names_smallest_missing (variablesEnabled : Bool) (cat : NGraphCatalog)
    (node_name : String) (cluster_id graph_id number_of_inputs number_of_outputs : Int)
    (msg : String)
    (h : NGraphTensorManager.create variablesEnabled cat node_name cluster_id graph_id
      number_of_inputs number_of_outputs = Except.error msg) :
    ∃ S i, cat.prefetched_input_index_map_ graph_id node_name = some S ∧ i ∈ S ∧
      i ∉ NGraphTensorManager.pipelinedInputIndexesOf variablesEnabled cat node_name
        cluster_id graph_id number_of_inputs number_of_outputs ∧
      (∀ j ∈ S, j ∉ NGraphTensorManager.pipelinedInputIndexesOf variablesEnabled cat
        node_name cluster_id graph_id number_of_inputs number_of_outputs → i ≤ j) ∧
      msg = "Prefetched input index " ++ toString i ++ " not found in pipelined inputs." := by
  rw [NGraphTensorManager.create_eq_locatePrefetched] at h
  obtain ⟨pre, a, post, hl, hpre, ha, hmsg⟩ :=
    NGraphTensorManager.locatePrefetched_error_inv _ _ _ h
  rw [NGraphTensorManager.pipelinedInputIndexesOf_eq]
  simp only [NGraphTensorManager.beforeLocate] at hpre ha
  have hsorted := List.sorted_insertionSort (fun a b : Int => a ≤ b)
    (cat.GetIndexesFromPrefetchedInputIndexMap graph_id node_name)
  have hmem : ∀ x, x ∈ cat.GetIndexesFromPrefetchedInputIndexMap graph_id node_name ↔
      x ∈ pre ++ a :: post := fun x => by
    rw [← hl]
    exact (List.perm_insertionSort _ _).mem_iff.symm
  rw [hl] at hsorted
  have hpost : ∀ b ∈ post, a ≤ b :=
    (List.sorted_cons.1 (List.Pairwise.sublist (List.sublist_append_right pre (a :: post))
      hsorted)).1
  have haS : a ∈ cat.GetIndexesFromPrefetchedInputIndexMap graph_id node_name :=
    (hmem a).2 (by simp)
  unfold NGraphCatalog.GetIndexesFromPrefetchedInputIndexMap at hmem haS
  cases hS : cat.prefetched_input_index_map_ graph_id node_name with
  | none =>
    rw [hS] at haS
    cases haS
  | some S =>
    rw [hS] at hmem haS
    simp only [Option.getD_some] at hmem haS
    refine ⟨S, a, rfl, haS, ha, ?_, hmsg⟩
    intro j hj hjn
    rcases List.mem_append.1 ((hmem j).1 hj) with hjpre | hjrest
    · exact absurd (hpre j hjpre) hjn
    · rcases List.mem_cons.1 hjrest with rfl | hjpost
      · exact le_refl _
      · exact hpost j hjpost

/-- Witness of C19 on the test `PrefetchNotInPipeline`: with 5 inputs and the registered set
`{6, 7}` the message names 6. -/
theorem create_error_names_smallest_missing_witness :
    NGraphTensorManager.create true catalogPrefetchNotInPipeline "xyz_1" 1 1 5 2 =
      Except.error "Prefetched input index 6 not found in pipelined inputs." ∧
    ∃ S i, catalogPrefetchNotInPipeline.prefetched_input_index_map_ 1 "xyz_1" = some S ∧
      i ∈ S ∧
      i ∉ NGraphTensorManager.pipelinedInputIndexesOf true catalogPrefetchNotInPipeline
        "xyz_1" 1 1 5 2 ∧
      (∀ j ∈ S, j ∉ NGraphTensorManager.pipelinedInputIndexesOf true
        catalogPrefetchNotInPipeline "xyz_1" 1 1 5 2 → i ≤ j) ∧
      "Prefetched input index 6 not found in pipelined inputs." =
        "Prefetched input index " ++ toString i ++ " not found in pipelined inputs." :=
  ⟨rfl,
    create_error_names_smallest_missing true catalogPrefetchNotInPipeline "xyz_1" 1 1 5 2
      "Prefetched input index 6 not found in pipelined inputs." rfl⟩

/-! ## Runs of calls on the shared resource -/

theorem wrapInt32_eq_self {x : Int} (hlo : -2147483648 ≤ x) (hhi : x ≤ 2147483647) :
    wrapInt32 x = x := by
  unfold wrapInt32
  omega

theorem wrapInt32_wrapInt32_add (x k : Int) :
    wrapInt32 (wrapInt32 x + k) = wrapInt32 (x + k) := by
  unfold wrapInt32
  omega

namespace NGraphPrefetchSharedResouce

theorem call_skip_count {self self1 : NGraphPrefetchSharedResouce} {c : Call} {ret : Returned}
    (h : call self c = some (ret, self1)) :
    self1.m_skip_count =
      if c = Call.IncrSkipCount then wrapInt32 (self.m_skip_count + 1)
      else self.m_skip_count := by
  cases c with
  | AddNextInputTensorBundleForDeviceTransfer next =>
    simp only [call, Option.some.injEq, Prod.mk.injEq] at h
    rw [← h.2]
    simp [AddNextInputTensorBundleForDeviceTransfer]
  | GetNextInputTensorBundleForDeviceTransfer =>
    unfold call GetNextInputTensorBundleForDeviceTransfer at h
    cases hq : self.m_tf_2_ng.GetNextAvailable with
    | none => simp [hq] at h
    | some p =>
      simp only [hq, Option.some.injEq, Prod.mk.injEq] at h
      rw [← h.2]
      simp
  | AddNextInputTensorBundleReadyForDeviceExecution next =>
    simp only [call, Option.some.injEq, Prod.mk.injEq] at h
    rw [← h.2]
    simp [AddNextInputTensorBundleReadyForDeviceExecution]
  | GetNextInputTensorBundleReadyForDeviceExecution =>
    unfold call GetNextInputTensorBundleReadyForDeviceExecution at h
    cases hq : self.m_ng_2_tf.GetNextAvailable with
    | none => simp [hq] at h
    | some p =>
      simp only [hq, Option.some.injEq, Prod.mk.injEq] at h
      rw [← h.2]
      simp
  | SetBufferDepth depth =>
    simp only [call, Option.some.injEq, Prod.mk.injEq] at h
    rw [← h.2]
    simp [SetBufferDepth]
  | GetBufferDepth =>
    unfold call at h
    cases hd : self.GetBufferDepth with
    | none => simp [hd] at h
    | some d =>
      simp only [hd, Option.some.injEq, Prod.mk.injEq] at h
      rw [← h.2]
      simp
  | IncrSkipCount =>
    simp only [call, Option.some.injEq, Prod.mk.injEq] at h
    rw [← h.2]
    simp [IncrSkipCount]
  | GetSkipCount =>
    simp only [call, Option.some.injEq, Prod.mk.injEq] at h
    rw [← h.2]
    simp

theorem run_cons_inv {c : Call} {rest : List Call} {self self2 : NGraphPrefetchSharedResouce}
    {returned : List Returned} (h : run (c :: rest) self = some (returned, self2)) :
    ∃ ret self1 rets, call self c = some (ret, self1) ∧ run rest self1 = some (rets, self2) ∧
      returned = ret :: rets := by
  unfold run at h
  cases hc : call self c with
  | none => simp [hc] at h
  | some p =>
    obtain ⟨ret, self1⟩ := p
    simp only [hc] at h
    cases hr : run rest self1 with
    | none => simp [hr] at h
    | some q =>
      obtain ⟨rets, self2b⟩ := q
      simp only [hr, Option.some.injEq, Prod.mk.injEq] at h
      exact ⟨ret, self1, rets, rfl, h.2 ▸ hr, h.1.symm⟩

theorem run_cons_of_call {c : Call} {rest : List Call}
    {self self1 self2 : NGraphPrefetchSharedResouce} {ret : Returned} {rets : List Returned}
    (hc : call self c = some (ret, self1)) (hr : run rest self1 = some (rets, self2)) :
    run (c :: rest) self = some (ret :: rets, self2) := by
  simp [run, hc, hr]

theorem run_append_inv {calls1 calls2 : List Call} {self self2 : NGraphPrefetchSharedResouce}
    {returned : List Returned} (h : run (calls1 ++ calls2) self = some (returned, self2)) :
    ∃ rets1 self1 rets2, run calls1 self = some (rets1, self1) ∧
      run calls2 self1 = some (rets2, self2) := by
  induction calls1 generalizing self returned with
  | nil => exact ⟨[], self, returned, rfl, h⟩
  | cons c rest ih =>
    obtain ⟨ret, selfa, rets, hc, hr, _⟩ := run_cons_inv h
    obtain ⟨rets1, self1, rets2, h1, h2⟩ := ih hr
    refine ⟨ret :: rets1, self1, rets2, ?_, h2⟩
    simp [run, hc, h1]

theorem countIncrSkipCount_cons (c : Call) (rest : List Call) :
    countIncrSkipCount (c :: rest) =
      countIncrSkipCount rest + (if c = Call.IncrSkipCount then 1 else 0) := by
  unfold countIncrSkipCount
  rw [List.count_cons]
  by_cases hc : c = Call.IncrSkipCount
  · simp [hc]
  · simp [hc]

theorem run_skip_count (calls : List Call) (self self2 : NGraphPrefetchSharedResouce)
    (returned : List Returned) (h : run calls self = some (returned, self2))
    (hlo : 0 ≤ self.m_skip_count)
    (hhi : self.m_skip_count + (countIncrSkipCount calls : Int) ≤ 2147483647) :
    self2.m_skip_count = self.m_skip_count + (countIncrSkipCount calls : Int) := by
  induction calls generalizing self returned with
  | nil =>
    simp only [run, Option.some.injEq, Prod.mk.injEq] at h
    rw [← h.2]
    simp [countIncrSkipCount]
  | cons c rest ih =>
    obtain ⟨ret, self1, rets, hc, hr, _⟩ := run_cons_inv h
    have hstep := call_skip_count hc
    rw [countIncrSkipCount_cons] at hhi ⊢
    by_cases hcI : c = Call.IncrSkipCount
    · simp only [hcI, if_true] at hstep hhi ⊢
      have hn : (0 : Int) ≤ (countIncrSkipCount rest : Int) := Int.ofNat_nonneg _
      have hw : wrapInt32 (self.m_skip_count + 1) = self.m_skip_count + 1 :=
        wrapInt32_eq_self (by omega) (by push_cast at hhi; omega)
      rw [hw] at hstep
      rw [ih self1 rets hr (by omega) (by push_cast at hhi; omega), hstep]
      push_cast
      omega
    · simp only [hcI, if_false] at hstep hhi ⊢
      rw [ih self1 rets hr (by omega) (by push_cast at hhi; omega), hstep]
      push_cast
      omega

theorem run_replicate_IncrSkipCount (k : Nat) (self : NGraphPrefetchSharedResouce) :
    run (List.replicate (k + 1) Call.IncrSkipCount) self =
      some (List.replicate (k + 1) Returned.void,
        { self with m_skip_count := wrapInt32 (self.m_skip_count + ((k + 1 : Nat) : Int)) }) := by
  induction k generalizing self with
  | zero => rfl
  | succ k ih =>
    have hrun := ih self.IncrSkipCount
    have hval : wrapInt32 (self.IncrSkipCount.m_skip_count + ((k + 1 : Nat) : Int)) =
        wrapInt32 (self.m_skip_count + ((k + 1 + 1 : Nat) : Int)) := by
      simp only [IncrSkipCount]
      rw [wrapInt32_wrapInt32_add]
      congr 1
      push_cast
      omega
    rw [hval] at hrun
    exact run_cons_of_call rfl hrun

end NGraphPrefetchSharedResouce

namespace NGraphPrefetchSharedResouce

theorem pushedForDeviceTransfer_cons (c : Call) (rest : List Call) :
    pushedForDeviceTransfer (c :: rest) =
      pushedForDeviceTransfer [c] ++ pushedForDeviceTransfer rest := by
  cases c <;> simp [pushedForDeviceTransfer]

theorem pushedReadyForDeviceExecution_cons (c : Call) (rest : List Call) :
    pushedReadyForDeviceExecution (c :: rest) =
      pushedReadyForDeviceExecution [c] ++ pushedReadyForDeviceExecution rest := by
  cases c <;> simp [pushedReadyForDeviceExecution]

theorem poppedForDeviceTransfer_cons (c : Call) (rest : List Call) (ret : Returned)
    (rets : List Returned) :
    poppedForDeviceTransfer (c :: rest) (ret :: rets) =
      poppedForDeviceTransfer [c] [ret] ++ poppedForDeviceTransfer rest rets := by
  cases c <;> cases ret <;> simp [poppedForDeviceTransfer]

theorem poppedReadyForDeviceExecution_cons (c : Call) (rest : List Call) (ret : Returned)
    (rets : List Returned) :
    poppedReadyForDeviceExecution (c :: rest) (ret :: rets) =
      poppedReadyForDeviceExecution [c] [ret] ++ poppedReadyForDeviceExecution rest rets := by
  cases c <;> cases ret <;> simp [poppedReadyForDeviceExecution]

theorem GetNextInputTensorBundleForDeviceTransfer_inv {self self1 : NGraphPrefetchSharedResouce}
    {next : InputTensorBundle}
    (h : self.GetNextInputTensorBundleForDeviceTransfer = some (next, self1)) :
    self.m_tf_2_ng.m_queue = next :: self1.m_tf_2_ng.m_queue ∧
      self1 = { self with m_tf_2_ng := { m_queue := self1.m_tf_2_ng.m_queue } } := by
  unfold GetNextInputTensorBundleForDeviceTransfer ThreadSafeQueue.GetNextAvailable at h
  cases hq : self.m_tf_2_ng.m_queue with
  | nil => simp [hq] at h
  | cons b t =>
    simp only [hq, Option.some.injEq, Prod.mk.injEq] at h
    obtain ⟨hb, hs⟩ := h
    subst hb
    subst hs
    exact ⟨rfl, rfl⟩

theorem GetNextInputTensorBundleReadyForDeviceExecution_inv
    {self self1 : NGraphPrefetchSharedResouce} {next : InputTensorBundle}
    (h : self.GetNextInputTensorBundleReadyForDeviceExecution = some (next, self1)) :
    self.m_ng_2_tf.m_queue = next :: self1.m_ng_2_tf.m_queue ∧
      self1 = { self with m_ng_2_tf := { m_queue := self1.m_ng_2_tf.m_queue } } := by
  unfold GetNextInputTensorBundleReadyForDeviceExecution ThreadSafeQueue.GetNextAvailable at h
  cases hq : self.m_ng_2_tf.m_queue with
  | nil => simp [hq] at h
  | cons b t =>
    simp only [hq, Option.some.injEq, Prod.mk.injEq] at h
    obtain ⟨hb, hs⟩ := h
    subst hb
    subst hs
    exact ⟨rfl, rfl⟩

theorem call_queues {self self1 : NGraphPrefetchSharedResouce} {c : Call} {ret : Returned}
    (h : call self c = some (ret, self1)) :
    poppedForDeviceTransfer [c] [ret] ++ self1.m_tf_2_ng.m_queue =
        self.m_tf_2_ng.m_queue ++ pushedForDeviceTransfer [c] ∧
      poppedReadyForDeviceExecution [c] [ret] ++ self1.m_ng_2_tf.m_queue =
        self.m_ng_2_tf.m_queue ++ pushedReadyForDeviceExecution [c] := by
  cases c with
  | AddNextInputTensorBundleForDeviceTransfer next =>
    simp only [call, Option.some.injEq, Prod.mk.injEq] at h
    obtain ⟨hr, hs⟩ := h
    subst hr
    subst hs
    simp [poppedForDeviceTransfer, pushedForDeviceTransfer, poppedReadyForDeviceExecution,
      pushedReadyForDeviceExecution, AddNextInputTensorBundleForDeviceTransfer,
      ThreadSafeQueue.Add]
  | GetNextInputTensorBundleForDeviceTransfer =>
    unfold call at h
    cases hq : self.GetNextInputTensorBundleForDeviceTransfer with
    | none => simp [hq] at h
    | some p =>
      obtain ⟨next, selfa⟩ := p
      simp only [hq, Option.some.injEq, Prod.mk.injEq] at h
      obtain ⟨hr, hs⟩ := h
      subst hr
      subst hs
      obtain ⟨hqueue, hself⟩ := GetNextInputTensorBundleForDeviceTransfer_inv hq
      rw [hqueue]
      have h2 : selfa.m_ng_2_tf = self.m_ng_2_tf := by rw [hself]
      simp [poppedForDeviceTransfer, pushedForDeviceTransfer, poppedReadyForDeviceExecution,
        pushedReadyForDeviceExecution, h2]
  | AddNextInputTensorBundleReadyForDeviceExecution next =>
    simp only [call, Option.some.injEq, Prod.mk.injEq] at h
    obtain ⟨hr, hs⟩ := h
    subst hr
    subst hs
    simp [poppedForDeviceTransfer, pushedForDeviceTransfer, poppedReadyForDeviceExecution,
      pushedReadyForDeviceExecution, AddNextInputTensorBundleReadyForDeviceExecution,
      ThreadSafeQueue.Add]
  | GetNextInputTensorBundleReadyForDeviceExecution =>
    unfold call at h
    cases hq : self.GetNextInputTensorBundleReadyForDeviceExecution with
    | none => simp [hq] at h
    | some p =>
      obtain ⟨next, selfa⟩ := p
      simp only [hq, Option.some.injEq, Prod.mk.injEq] at h
      obtain ⟨hr, hs⟩ := h
      subst hr
      subst hs
      obtain ⟨hqueue, hself⟩ := GetNextInputTensorBundleReadyForDeviceExecution_inv hq
      rw [hqueue]
      have h2 : selfa.m_tf_2_ng = self.m_tf_2_ng := by rw [hself]
      simp [poppedForDeviceTransfer, pushedForDeviceTransfer, poppedReadyForDeviceExecution,
        pushedReadyForDeviceExecution, h2]
  | SetBufferDepth depth =>
    simp only [call, Option.some.injEq, Prod.mk.injEq] at h
    obtain ⟨hr, hs⟩ := h
    subst hr
    subst hs
    simp [poppedForDeviceTransfer, pushedForDeviceTransfer, poppedReadyForDeviceExecution,
      pushedReadyForDeviceExecution, SetBufferDepth]
  | GetBufferDepth =>
    unfold call at h
    cases hd : self.GetBufferDepth with
    | none => simp [hd] at h
    | some d =>
      simp only [hd, Option.some.injEq, Prod.mk.injEq] at h
      obtain ⟨hr, hs⟩ := h
      subst hr
      subst hs
      simp [poppedForDeviceTransfer, pushedForDeviceTransfer, poppedReadyForDeviceExecution,
        pushedReadyForDeviceExecution]
  | IncrSkipCount =>
    simp only [call, Option.some.injEq, Prod.mk.injEq] at h
    obtain ⟨hr, hs⟩ := h
    subst hr
    subst hs
    simp [poppedForDeviceTransfer, pushedForDeviceTransfer, poppedReadyForDeviceExecution,
      pushedReadyForDeviceExecution, IncrSkipCount]
  | GetSkipCount =>
    simp only [call, Option.some.injEq, Prod.mk.injEq] at h
    obtain ⟨hr, hs⟩ := h
    subst hr
    subst hs
    simp [poppedForDeviceTransfer, pushedForDeviceTransfer, poppedReadyForDeviceExecution,
      pushedReadyForDeviceExecution]

theorem run_queues (calls : List Call) (self self2 : NGraphPrefetchSharedResouce)
    (returned : List Returned) (h : run calls self = some (returned, self2)) :
    poppedForDeviceTransfer calls returned ++ self2.m_tf_2_ng.m_queue =
        self.m_tf_2_ng.m_queue ++ pushedForDeviceTransfer calls ∧
      poppedReadyForDeviceExecution calls returned ++ self2.m_ng_2_tf.m_queue =
        self.m_ng_2_tf.m_queue ++ pushedReadyForDeviceExecution calls := by
  induction calls generalizing self returned with
  | nil =>
    simp only [run, Option.some.injEq, Prod.mk.injEq] at h
    obtain ⟨hr, hs⟩ := h
    subst hr
    subst hs
    simp [poppedForDeviceTransfer, pushedForDeviceTransfer, poppedReadyForDeviceExecution,
      pushedReadyForDeviceExecution]
  | cons c rest ih =>
    obtain ⟨ret, self1, rets, hc, hr, hret⟩ := run_cons_inv h
    subst hret
    obtain ⟨ih1, ih2⟩ := ih self1 rets hr
    obtain ⟨hc1, hc2⟩ := call_queues hc
    rw [poppedForDeviceTransfer_cons, pushedForDeviceTransfer_cons,
      poppedReadyForDeviceExecution_cons, pushedReadyForDeviceExecution_cons]
    constructor
    · rw [List.append_assoc, ih1, ← List.append_assoc, hc1, List.append_assoc]
    · rw [List.append_assoc, ih2, ← List.append_assoc, hc2, List.append_assoc]

end NGraphPrefetchSharedResouce

/-! ## Runs of the protocol of the two threads -/

namespace PipelineState

theorem step_invariant {s s1 : PipelineState} {st : PipelineStep} (h : s.step st = some s1)
    (hinv : s.poppedByExecutionNode ++ s.resource.m_ng_2_tf.m_queue ++
        s.prefetcherHolds.toList ++ s.resource.m_tf_2_ng.m_queue = s.pushedByExecutionNode) :
    s1.poppedByExecutionNode ++ s1.resource.m_ng_2_tf.m_queue ++
        s1.prefetcherHolds.toList ++ s1.resource.m_tf_2_ng.m_queue =
      s1.pushedByExecutionNode ∧
    s1.pushedByExecutionNode = s.pushedByExecutionNode ++ pushedIn [st] := by
  cases st with
  | executionNodePush bundle =>
    simp only [step, Option.some.injEq] at h
    subst h
    simp [pushedIn, NGraphPrefetchSharedResouce.AddNextInputTensorBundleForDeviceTransfer,
      ThreadSafeQueue.Add, ← hinv]
  | prefetcherPop =>
    unfold step at h
    cases hh : s.prefetcherHolds with
    | some b => simp [hh] at h
    | none =>
      cases hq : s.resource.GetNextInputTensorBundleForDeviceTransfer with
      | none => simp [hh, hq] at h
      | some p =>
        obtain ⟨next, resource1⟩ := p
        simp only [hh, hq, Option.some.injEq] at h
        subst h
        obtain ⟨hqueue, hres⟩ :=
          NGraphPrefetchSharedResouce.GetNextInputTensorBundleForDeviceTransfer_inv hq
        have h2 : resource1.m_ng_2_tf = s.resource.m_ng_2_tf := by rw [hres]
        rw [hh, hqueue] at hinv
        simp [pushedIn, h2, ← hinv]
  | prefetcherPush =>
    unfold step at h
    cases hh : s.prefetcherHolds with
    | none => simp [hh] at h
    | some b =>
      simp only [hh, Option.some.injEq] at h
      subst h
      rw [hh] at hinv
      simp [pushedIn, NGraphPrefetchSharedResouce.AddNextInputTensorBundleReadyForDeviceExecution,
        ThreadSafeQueue.Add, ← hinv]
  | executionNodePop =>
    unfold step at h
    cases hq : s.resource.GetNextInputTensorBundleReadyForDeviceExecution with
    | none => simp [hq] at h
    | some p =>
      obtain ⟨next, resource1⟩ := p
      simp only [hq, Option.some.injEq] at h
      subst h
      obtain ⟨hqueue, hres⟩ :=
        NGraphPrefetchSharedResouce.GetNextInputTensorBundleReadyForDeviceExecution_inv hq
      have h2 : resource1.m_tf_2_ng = s.resource.m_tf_2_ng := by rw [hres]
      rw [hqueue] at hinv
      simp [pushedIn, h2, ← hinv]

theorem pushedIn_cons (st : PipelineStep) (rest : List PipelineStep) :
    pushedIn (st :: rest) = pushedIn [st] ++ pushedIn rest := by
  cases st <;> simp [pushedIn]

theorem run_invariant (steps : List PipelineStep) (s s2 : PipelineState)
    (h : run steps s = some s2)
    (hinv : s.poppedByExecutionNode ++ s.resource.m_ng_2_tf.m_queue ++
        s.prefetcherHolds.toList ++ s.resource.m_tf_2_ng.m_queue = s.pushedByExecutionNode) :
    s2.poppedByExecutionNode ++ s2.resource.m_ng_2_tf.m_queue ++
        s2.prefetcherHolds.toList ++ s2.resource.m_tf_2_ng.m_queue =
      s2.pushedByExecutionNode ∧
    s2.pushedByExecutionNode = s.pushedByExecutionNode ++ pushedIn steps := by
  induction steps generalizing s with
  | nil =>
    simp only [run, Option.some.injEq] at h
    subst h
    exact ⟨hinv, by simp [pushedIn]⟩
  | cons st rest ih =>
    unfold run at h
    cases hs : s.step st with
    | none => simp [hs] at h
    | some s1 =>
      simp only [hs] at h
      obtain ⟨hinv1, hpush1⟩ := step_invariant hs hinv
      obtain ⟨hinv2, hpush2⟩ := ih s1 h hinv1
      refine ⟨hinv2, ?_⟩
      rw [hpush2, hpush1, List.append_assoc, pushedIn_cons st rest]

end PipelineState

/-! ## The skip count and the two queues -/

/-- C16, as stated, fails once the `int` is exhausted: on a resource whose skip count is
`2147483647`, `IncrSkipCount` leaves `-2147483648`, which is not one more and is a decrease;
and the run of `2147483648` calls of `IncrSkipCount` on a new resource ends with
`GetSkipCount` at `-2147483648`, not at the number of calls. -/
theorem skip_count_wraps_past_int_max :
    ({ NGraphPrefetchSharedResouce.create "xyz_1" "CPU" 1 1 with
        m_skip_count := 2147483647 }).IncrSkipCount.GetSkipCount = -2147483648 ∧
    NGraphPrefetchSharedResouce.countIncrSkipCount
      (List.replicate 2147483648 NGraphPrefetchSharedResouce.Call.IncrSkipCount) =
        2147483648 ∧
    NGraphPrefetchSharedResouce.run
        (List.replicate 2147483648 NGraphPrefetchSharedResouce.Call.IncrSkipCount)
        (NGraphPrefetchSharedResouce.create "xyz_1" "CPU" 1 1) =
      some (List.replicate 2147483648 NGraphPrefetchSharedResouce.Returned.void,
        { NGraphPrefetchSharedResouce.create "xyz_1" "CPU" 1 1 with
          m_skip_count := -2147483648 }) ∧
    ({ NGraphPrefetchSharedResouce.create "xyz_1" "CPU" 1 1 with
        m_skip_count := -2147483648 }).GetSkipCount ≠ 2147483648 := by
  refine ⟨by decide, List.count_replicate_self _ _, ?_, by decide⟩
  have h := NGraphPrefetchSharedResouce.run_replicate_IncrSkipCount 2147483647
    (NGraphPrefetchSharedResouce.create "xyz_1" "CPU" 1 1)
  have hv : wrapInt32 ((NGraphPrefetchSharedResouce.create "xyz_1" "CPU" 1 1).m_skip_count +
      ((2147483647 + 1 : Nat) : Int)) = -2147483648 := by decide
  rw [hv] at h
  exact h

/-- C16, amended: the skip count of a new resource is 0; `IncrSkipCount` on a count in
`[-2147483648, 2147483647)` raises what `GetSkipCount` returns by exactly 1; no other call
changes it; so after any run of calls from a new resource that holds at most `2147483647`
calls of `IncrSkipCount`, `GetSkipCount` returns the number of those calls, and what it
returned after an earlier part of the run is not larger. -/
theorem skip_count_counts_increments (ng_enc_op_name backend_name : String)
    (cluster_id graph_id : Int) (calls : List NGraphPrefetchSharedResouce.Call)
    (returned : List NGraphPrefetchSharedResouce.Returned)
    (self2 : NGraphPrefetchSharedResouce)
    (hrun : NGraphPrefetchSharedResouce.run calls
      (NGraphPrefetchSharedResouce.create ng_enc_op_name backend_name cluster_id graph_id) =
        some (returned, self2))
    (hk : NGraphPrefetchSharedResouce.countIncrSkipCount calls ≤ 2147483647) :
    (NGraphPrefetchSharedResouce.create ng_enc_op_name backend_name cluster_id
      graph_id).GetSkipCount = 0 ∧
    (∀ self : NGraphPrefetchSharedResouce, -2147483648 ≤ self.GetSkipCount →
      self.GetSkipCount < 2147483647 →
      self.IncrSkipCount.GetSkipCount = self.GetSkipCount + 1) ∧
    (∀ (self self1 : NGraphPrefetchSharedResouce) (c : NGraphPrefetchSharedResouce.Call)
      (ret : NGraphPrefetchSharedResouce.Returned),
      c ≠ NGraphPrefetchSharedResouce.Call.IncrSkipCount →
      self.call c = some (ret, self1) → self1.GetSkipCount = self.GetSkipCount) ∧
    self2.GetSkipCount = (NGraphPrefetchSharedResouce.countIncrSkipCount calls : Int) ∧
    self2.call NGraphPrefetchSharedResouce.Call.GetSkipCount =
      some (NGraphPrefetchSharedResouce.Returned.int
        (NGraphPrefetchSharedResouce.countIncrSkipCount calls : Int), self2) ∧
    (∀ (calls1 calls2 : List NGraphPrefetchSharedResouce.Call)
      (returned1 : List NGraphPrefetchSharedResouce.Returned)
      (self1 : NGraphPrefetchSharedResouce), calls = calls1 ++ calls2 →
      NGraphPrefetchSharedResouce.run calls1
        (NGraphPrefetchSharedResouce.create ng_enc_op_name backend_name cluster_id graph_id) =
          some (returned1, self1) →
      self1.GetSkipCount ≤ self2.GetSkipCount) := by
  have hcount : ∀ (cs : List NGraphPrefetchSharedResouce.Call)
      (rets : List NGraphPrefetchSharedResouce.Returned) (s : NGraphPrefetchSharedResouce),
      NGraphPrefetchSharedResouce.run cs
        (NGraphPrefetchSharedResouce.create ng_enc_op_name backend_name cluster_id graph_id) =
          some (rets, s) →
      NGraphPrefetchSharedResouce.countIncrSkipCount cs ≤ 2147483647 →
      s.GetSkipCount = (NGraphPrefetchSharedResouce.countIncrSkipCount cs : Int) := by
    intro cs rets s hcs hle
    have h0 : (NGraphPrefetchSharedResouce.create ng_enc_op_name backend_name cluster_id
        graph_id).m_skip_count = 0 := rfl
    have := NGraphPrefetchSharedResouce.run_skip_count cs _ s rets hcs (by rw [h0])
      (by rw [h0]; omega)
    rw [h0] at this
    unfold NGraphPrefetchSharedResouce.GetSkipCount
    omega
  have hfinal := hcount calls returned self2 hrun hk
  refine ⟨rfl, ?_, ?_, hfinal, ?_, ?_⟩
  · intro self hlo hhi
    unfold NGraphPrefetchSharedResouce.GetSkipCount at hlo hhi ⊢
    simp only [NGraphPrefetchSharedResouce.IncrSkipCount]
    exact wrapInt32_eq_self (by omega) (by omega)
  · intro self self1 c ret hc hcall
    have := NGraphPrefetchSharedResouce.call_skip_count hcall
    simp only [hc, if_false] at this
    exact this
  · simp only [NGraphPrefetchSharedResouce.call]
    rw [hfinal]
  · intro calls1 calls2 returned1 self1 hsplit h1
    have hle : NGraphPrefetchSharedResouce.countIncrSkipCount calls1 ≤
        NGraphPrefetchSharedResouce.countIncrSkipCount calls := by
      rw [hsplit]
      unfold NGraphPrefetchSharedResouce.countIncrSkipCount
      rw [List.count_append]
      omega
    rw [hfinal, hcount calls1 returned1 self1 h1 (by omega)]
    exact_mod_cast hle

/-- Witness of the amended C16: a run with three calls of `IncrSkipCount` among pushes, a
pop, a depth set and read and a count read, on a new resource. -/
theorem skip_count_counts_increments_witness :
    NGraphPrefetchSharedResouce.run
        [NGraphPrefetchSharedResouce.Call.IncrSkipCount,
          NGraphPrefetchSharedResouce.Call.AddNextInputTensorBundleForDeviceTransfer
            ⟨1, [10, 11]⟩,
          NGraphPrefetchSharedResouce.Call.GetSkipCount,
          NGraphPrefetchSharedResouce.Call.IncrSkipCount,
          NGraphPrefetchSharedResouce.Call.SetBufferDepth 2,
          NGraphPrefetchSharedResouce.Call.GetBufferDepth,
          NGraphPrefetchSharedResouce.Call.GetNextInputTensorBundleForDeviceTransfer,
          NGraphPrefetchSharedResouce.Call.IncrSkipCount]
        (NGraphPrefetchSharedResouce.create "xyz_1" "CPU" 1 1) =
      some ([NGraphPrefetchSharedResouce.Returned.void,
          NGraphPrefetchSharedResouce.Returned.void,
          NGraphPrefetchSharedResouce.Returned.int 1,
          NGraphPrefetchSharedResouce.Returned.void,
          NGraphPrefetchSharedResouce.Returned.void,
          NGraphPrefetchSharedResouce.Returned.int 2,
          NGraphPrefetchSharedResouce.Returned.bundle ⟨1, [10, 11]⟩,
          NGraphPrefetchSharedResouce.Returned.void],
        { NGraphPrefetchSharedResouce.create "xyz_1" "CPU" 1 1 with
          m_prefetch_buffer_depth := 2
          m_skip_count := 3 }) ∧
    ({ NGraphPrefetchSharedResouce.create "xyz_1" "CPU" 1 1 with
        m_prefetch_buffer_depth := 2
        m_skip_count := 3 } : NGraphPrefetchSharedResouce).GetSkipCount =
      (NGraphPrefetchSharedResouce.countIncrSkipCount
        [NGraphPrefetchSharedResouce.Call.IncrSkipCount,
          NGraphPrefetchSharedResouce.Call.AddNextInputTensorBundleForDeviceTransfer
            ⟨1, [10, 11]⟩,
          NGraphPrefetchSharedResouce.Call.GetSkipCount,
          NGraphPrefetchSharedResouce.Call.IncrSkipCount,
          NGraphPrefetchSharedResouce.Call.SetBufferDepth 2,
          NGraphPrefetchSharedResouce.Call.GetBufferDepth,
          NGraphPrefetchSharedResouce.Call.GetNextInputTensorBundleForDeviceTransfer,
          NGraphPrefetchSharedResouce.Call.IncrSkipCount] : Int) ∧
    ({ NGraphPrefetchSharedResouce.create "xyz_1" "CPU" 1 1 with
        m_prefetch_buffer_depth := 2
        m_skip_count := 3 } : NGraphPrefetchSharedResouce).GetSkipCount = 3 :=
  ⟨by decide,
    (skip_count_counts_increments "xyz_1" "CPU" 1 1
      [NGraphPrefetchSharedResouce.Call.IncrSkipCount,
        NGraphPrefetchSharedResouce.Call.AddNextInputTensorBundleForDeviceTransfer
          ⟨1, [10, 11]⟩,
        NGraphPrefetchSharedResouce.Call.GetSkipCount,
        NGraphPrefetchSharedResouce.Call.IncrSkipCount,
        NGraphPrefetchSharedResouce.Call.SetBufferDepth 2,
        NGraphPrefetchSharedResouce.Call.GetBufferDepth,
        NGraphPrefetchSharedResouce.Call.GetNextInputTensorBundleForDeviceTransfer,
        NGraphPrefetchSharedResouce.Call.IncrSkipCount]
      [NGraphPrefetchSharedResouce.Returned.void,
        NGraphPrefetchSharedResouce.Returned.void,
        NGraphPrefetchSharedResouce.Returned.int 1,
        NGraphPrefetchSharedResouce.Returned.void,
        NGraphPrefetchSharedResouce.Returned.void,
        NGraphPrefetchSharedResouce.Returned.int 2,
        NGraphPrefetchSharedResouce.Returned.bundle ⟨1, [10, 11]⟩,
        NGraphPrefetchSharedResouce.Returned.void]
      { NGraphPrefetchSharedResouce.create "xyz_1" "CPU" 1 1 with
        m_prefetch_buffer_depth := 2
        m_skip_count := 3 }
      (by decide) (by decide)).2.2.2.1,
    by decide⟩

/-- C17: the two queues are independent and paired with their own operations.  A push or a
pop through the `ForDeviceTransfer` pair touches only `m_tf_2_ng`, a push or a pop through the
`ReadyForDeviceExecution` pair touches only `m_ng_2_tf`, and each leaves the other queue, the
buffer depth and the skip count as they were; a push on one queue does not change what the
pop of the other queue returns; and in every run of calls the bundles returned by the pops of
a queue, followed by what the queue still holds, are what the queue held at the start
followed by the bundles pushed onto that same queue, in order. -/
theorem queues_are_independent (self : NGraphPrefetchSharedResouce) (next : InputTensorBundle)
    (calls : List NGraphPrefetchSharedResouce.Call)
    (returned : List NGraphPrefetchSharedResouce.Returned)
    (self2 : NGraphPrefetchSharedResouce)
    (hrun : NGraphPrefetchSharedResouce.run calls self = some (returned, self2)) :
    ((self.AddNextInputTensorBundleForDeviceTransfer next).m_tf_2_ng.m_queue =
        self.m_tf_2_ng.m_queue ++ [next] ∧
      (self.AddNextInputTensorBundleForDeviceTransfer next).m_ng_2_tf = self.m_ng_2_tf ∧
      (self.AddNextInputTensorBundleForDeviceTransfer next).m_prefetch_buffer_depth =
        self.m_prefetch_buffer_depth ∧
      (self.AddNextInputTensorBundleForDeviceTransfer next).m_skip_count =
        self.m_skip_count) ∧
    (∀ (b : InputTensorBundle) (self1 : NGraphPrefetchSharedResouce),
      self.GetNextInputTensorBundleForDeviceTransfer = some (b, self1) →
      self.m_tf_2_ng.m_queue = b :: self1.m_tf_2_ng.m_queue ∧
      self1.m_ng_2_tf = self.m_ng_2_tf ∧
      self1.m_prefetch_buffer_depth = self.m_prefetch_buffer_depth ∧
      self1.m_skip_count = self.m_skip_count) ∧
    ((self.AddNextInputTensorBundleReadyForDeviceExecution next).m_ng_2_tf.m_queue =
        self.m_ng_2_tf.m_queue ++ [next] ∧
      (self.AddNextInputTensorBundleReadyForDeviceExecution next).m_tf_2_ng = self.m_tf_2_ng ∧
      (self.AddNextInputTensorBundleReadyForDeviceExecution next).m_prefetch_buffer_depth =
        self.m_prefetch_buffer_depth ∧
      (self.AddNextInputTensorBundleReadyForDeviceExecution next).m_skip_count =
        self.m_skip_count) ∧
    (∀ (b : InputTensorBundle) (self1 : NGraphPrefetchSharedResouce),
      self.GetNextInputTensorBundleReadyForDeviceExecution = some (b, self1) →
      self.m_ng_2_tf.m_queue = b :: self1.m_ng_2_tf.m_queue ∧
      self1.m_tf_2_ng = self.m_tf_2_ng ∧
      self1.m_prefetch_buffer_depth = self.m_prefetch_buffer_depth ∧
      self1.m_skip_count = self.m_skip_count) ∧
    (self.AddNextInputTensorBundleForDeviceTransfer
        next).GetNextInputTensorBundleReadyForDeviceExecution =
      self.GetNextInputTensorBundleReadyForDeviceExecution.map
        (fun p => (p.1, p.2.AddNextInputTensorBundleForDeviceTransfer next)) ∧
    (self.AddNextInputTensorBundleReadyForDeviceExecution
        next).GetNextInputTensorBundleForDeviceTransfer =
      self.GetNextInputTensorBundleForDeviceTransfer.map
        (fun p => (p.1, p.2.AddNextInputTensorBundleReadyForDeviceExecution next)) ∧
    NGraphPrefetchSharedResouce.poppedForDeviceTransfer calls returned ++
        self2.m_tf_2_ng.m_queue =
      self.m_tf_2_ng.m_queue ++ NGraphPrefetchSharedResouce.pushedForDeviceTransfer calls ∧
    NGraphPrefetchSharedResouce.poppedReadyForDeviceExecution calls returned ++
        self2.m_ng_2_tf.m_queue =
      self.m_ng_2_tf.m_queue ++
        NGraphPrefetchSharedResouce.pushedReadyForDeviceExecution calls := by
  refine ⟨⟨?_, rfl, rfl, rfl⟩, ?_, ⟨?_, rfl, rfl, rfl⟩, ?_, ?_, ?_,
    NGraphPrefetchSharedResouce.run_queues calls self self2 returned hrun⟩
  · simp [NGraphPrefetchSharedResouce.AddNextInputTensorBundleForDeviceTransfer,
      ThreadSafeQueue.Add]
  · intro b self1 h
    obtain ⟨hq, hs⟩ :=
      NGraphPrefetchSharedResouce.GetNextInputTensorBundleForDeviceTransfer_inv h
    refine ⟨hq, ?_, ?_, ?_⟩ <;> rw [hs]
  · simp [NGraphPrefetchSharedResouce.AddNextInputTensorBundleReadyForDeviceExecution,
      ThreadSafeQueue.Add]
  · intro b self1 h
    obtain ⟨hq, hs⟩ :=
      NGraphPrefetchSharedResouce.GetNextInputTensorBundleReadyForDeviceExecution_inv h
    refine ⟨hq, ?_, ?_, ?_⟩ <;> rw [hs]
  · unfold NGraphPrefetchSharedResouce.GetNextInputTensorBundleReadyForDeviceExecution
      ThreadSafeQueue.GetNextAvailable
    cases hq : self.m_ng_2_tf.m_queue with
    | nil =>
      simp [NGraphPrefetchSharedResouce.AddNextInputTensorBundleForDeviceTransfer, hq]
    | cons b t =>
      simp [NGraphPrefetchSharedResouce.AddNextInputTensorBundleForDeviceTransfer, hq]
  · unfold NGraphPrefetchSharedResouce.GetNextInputTensorBundleForDeviceTransfer
      ThreadSafeQueue.GetNextAvailable
    cases hq : self.m_tf_2_ng.m_queue with
    | nil =>
      simp [NGraphPrefetchSharedResouce.AddNextInputTensorBundleReadyForDeviceExecution, hq]
    | cons b t =>
      simp [NGraphPrefetchSharedResouce.AddNextInputTensorBundleReadyForDeviceExecution, hq]

/-- Witness of C17: on a new resource, bundle 1 pushed for device transfer and bundle 2 pushed
as ready for device execution are returned by the pop of their own queue. -/
theorem queues_are_independent_witness :
    NGraphPrefetchSharedResouce.run
        [NGraphPrefetchSharedResouce.Call.AddNextInputTensorBundleForDeviceTransfer
            ⟨1, [10, 11]⟩,
          NGraphPrefetchSharedResouce.Call.AddNextInputTensorBundleReadyForDeviceExecution
            ⟨2, [20, 21]⟩,
          NGraphPrefetchSharedResouce.Call.GetNextInputTensorBundleReadyForDeviceExecution,
          NGraphPrefetchSharedResouce.Call.GetNextInputTensorBundleForDeviceTransfer]
        (NGraphPrefetchSharedResouce.create "xyz_1" "CPU" 1 1) =
      some ([NGraphPrefetchSharedResouce.Returned.void,
          NGraphPrefetchSharedResouce.Returned.void,
          NGraphPrefetchSharedResouce.Returned.bundle ⟨2, [20, 21]⟩,
          NGraphPrefetchSharedResouce.Returned.bundle ⟨1, [10, 11]⟩],
        NGraphPrefetchSharedResouce.create "xyz_1" "CPU" 1 1) ∧
    ((NGraphPrefetchSharedResouce.create "xyz_1" "CPU" 1
        1).AddNextInputTensorBundleForDeviceTransfer
        ⟨3, [30, 31]⟩).GetNextInputTensorBundleReadyForDeviceExecution = none ∧
    ((NGraphPrefetchSharedResouce.create "xyz_1" "CPU" 1
        1).AddNextInputTensorBundleForDeviceTransfer
        ⟨3, [30, 31]⟩).GetNextInputTensorBundleReadyForDeviceExecution =
      (NGraphPrefetchSharedResouce.create "xyz_1" "CPU" 1
        1).GetNextInputTensorBundleReadyForDeviceExecution.map
        (fun p => (p.1, p.2.AddNextInputTensorBundleForDeviceTransfer ⟨3, [30, 31]⟩)) :=
  ⟨by decide, by decide,
    (queues_are_independent (NGraphPrefetchSharedResouce.create "xyz_1" "CPU" 1 1)
      ⟨3, [30, 31]⟩
      [NGraphPrefetchSharedResouce.Call.AddNextInputTensorBundleForDeviceTransfer
          ⟨1, [10, 11]⟩,
        NGraphPrefetchSharedResouce.Call.AddNextInputTensorBundleReadyForDeviceExecution
          ⟨2, [20, 21]⟩,
        NGraphPrefetchSharedResouce.Call.GetNextInputTensorBundleReadyForDeviceExecution,
        NGraphPrefetchSharedResouce.Call.GetNextInputTensorBundleForDeviceTransfer]
      [NGraphPrefetchSharedResouce.Returned.void,
        NGraphPrefetchSharedResouce.Returned.void,
        NGraphPrefetchSharedResouce.Returned.bundle ⟨2, [20, 21]⟩,
        NGraphPrefetchSharedResouce.Returned.bundle ⟨1, [10, 11]⟩]
      (NGraphPrefetchSharedResouce.create "xyz_1" "CPU" 1 1) (by decide)).2.2.2.2.1⟩

/-! ## Order across the two queues -/

/-- C20: in every run of the protocol from a new resource, in which the execution node pushes
bundles onto the awaiting-staging queue and pops bundles from the ready-for-execution queue
while the prefetcher pops one bundle from the awaiting-staging queue and pushes it onto the
ready-for-execution queue, over and over, the bundles the execution node has popped are the
first of the bundles it has pushed, in the same order: the `k`-th bundle popped is the `k`-th
bundle pushed. -/
theorem execution_node_pops_in_push_order (ng_enc_op_name backend_name : String)
    (cluster_id graph_id : Int) (steps : List PipelineStep) (s2 : PipelineState)
    (hrun : PipelineState.run steps
      { resource :=
          NGraphPrefetchSharedResouce.create ng_enc_op_name backend_name cluster_id
            graph_id } = some s2) :
    s2.pushedByExecutionNode = PipelineState.pushedIn steps ∧
    s2.poppedByExecutionNode ++ s2.resource.m_ng_2_tf.m_queue ++
        s2.prefetcherHolds.toList ++ s2.resource.m_tf_2_ng.m_queue =
      PipelineState.pushedIn steps ∧
    s2.poppedByExecutionNode <+: PipelineState.pushedIn steps ∧
    (∀ (k : Nat) (b : InputTensorBundle), s2.poppedByExecutionNode[k]? = some b →
      (PipelineState.pushedIn steps)[k]? = some b) := by
  obtain ⟨hinv, hpush⟩ := PipelineState.run_invariant steps _ s2 hrun rfl
  simp only [List.nil_append] at hpush
  rw [hpush] at hinv
  have hprefix : s2.poppedByExecutionNode <+: PipelineState.pushedIn steps :=
    ⟨s2.resource.m_ng_2_tf.m_queue ++ s2.prefetcherHolds.toList ++
      s2.resource.m_tf_2_ng.m_queue, by rw [← hinv]; simp [List.append_assoc]⟩
  refine ⟨hpush, hinv, hprefix, ?_⟩
  intro k b hk
  obtain ⟨rest, hrest⟩ := hprefix
  rw [← hrest]
  have hlt : k < s2.poppedByExecutionNode.length := by
    obtain ⟨hlt, _⟩ := List.getElem?_eq_some.1 hk
    exact hlt
  rw [List.getElem?_append_left hlt]
  exact hk

/-- Witness of C20: three iterations in which the execution node pushes bundles 1, 2, 3 and,
from the second iteration on, pops; the prefetcher moves bundles 1 and 2; the execution node
pops bundle 1 and then bundle 2. -/
theorem execution_node_pops_in_push_order_witness :
    PipelineState.run
        [PipelineStep.executionNodePush ⟨1, [10, 11]⟩,
          PipelineStep.prefetcherPop,
          PipelineStep.executionNodePush ⟨2, [20, 21]⟩,
          PipelineStep.prefetcherPush,
          PipelineStep.executionNodePop,
          PipelineStep.prefetcherPop,
          PipelineStep.prefetcherPush,
          PipelineStep.executionNodePush ⟨3, [30, 31]⟩,
          PipelineStep.executionNodePop]
        { resource := NGraphPrefetchSharedResouce.create "xyz_1" "CPU" 1 1 } =
      some
        { resource :=
            { NGraphPrefetchSharedResouce.create "xyz_1" "CPU" 1 1 with
              m_tf_2_ng := { m_queue := [⟨3, [30, 31]⟩] } }
          prefetcherHolds := none
          pushedByExecutionNode := [⟨1, [10, 11]⟩, ⟨2, [20, 21]⟩, ⟨3, [30, 31]⟩]
          poppedByExecutionNode := [⟨1, [10, 11]⟩, ⟨2, [20, 21]⟩] } ∧
    ([⟨1, [10, 11]⟩, ⟨2, [20, 21]⟩] : List InputTensorBundle) <+:
      PipelineState.pushedIn
        [PipelineStep.executionNodePush ⟨1, [10, 11]⟩,
          PipelineStep.prefetcherPop,
          PipelineStep.executionNodePush ⟨2, [20, 21]⟩,
          PipelineStep.prefetcherPush,
          PipelineStep.executionNodePop,
          PipelineStep.prefetcherPop,
          PipelineStep.prefetcherPush,
          PipelineStep.executionNodePush ⟨3, [30, 31]⟩,
          PipelineStep.executionNodePop] :=
  ⟨by decide,
    (execution_node_pops_in_push_order "xyz_1" "CPU" 1 1
      [PipelineStep.executionNodePush ⟨1, [10, 11]⟩,
        PipelineStep.prefetcherPop,
        PipelineStep.executionNodePush ⟨2, [20, 21]⟩,
        PipelineStep.prefetcherPush,
        PipelineStep.executionNodePop,
        PipelineStep.prefetcherPop,
        PipelineStep.prefetcherPush,
        PipelineStep.executionNodePush ⟨3, [30, 31]⟩,
        PipelineStep.executionNodePop]
      { resource :=
          { NGraphPrefetchSharedResouce.create "xyz_1" "CPU" 1 1 with
            m_tf_2_ng := { m_queue := [⟨3, [30, 31]⟩] } }
        prefetcherHolds := none
        pushedByExecutionNode := [⟨1, [10, 11]⟩, ⟨2, [20, 21]⟩, ⟨3, [30, 31]⟩]
        poppedByExecutionNode := [⟨1, [10, 11]⟩, ⟨2, [20, 21]⟩] }
      (by decide)).2.2.1⟩

/-! ## Positions inside the pipelined inputs -/

theorem indexOf_lt_indexOf_of_sorted {l : List Int} (hs : l.Sorted (fun a b => a < b))
    {a b : Int} (ha : a ∈ l) (hb : b ∈ l) (hab : a < b) : l.indexOf a < l.indexOf b := by
  induction l with
  | nil => cases ha
  | cons c t ih =>
    have hct : ∀ x ∈ t, c < x := (List.sorted_cons.1 hs).1
    have hst : t.Sorted (fun a b => a < b) := (List.sorted_cons.1 hs).2
    by_cases hca : c = a
    · subst hca
      have hcb : c ≠ b := by omega
      rw [List.indexOf_cons_self, List.indexOf_cons_ne _ hcb]
      omega
    · have hat : a ∈ t := by
        rcases List.mem_cons.1 ha with h | h
        · exact absurd h.symm hca
        · exact h
      have hlt : c < a := hct a hat
      have hcb : c ≠ b := by omega
      have hbt : b ∈ t := by
        rcases List.mem_cons.1 hb with h | h
        · exact absurd h.symm hcb
        · exact h
      rw [List.indexOf_cons_ne _ hca, List.indexOf_cons_ne _ hcb]
      exact Nat.succ_lt_succ (ih hst hat hbt)

theorem sorted_map_indexOf {l S : List Int} (hl : l.Sorted (fun a b => a < b))
    (hS : S.Sorted (fun a b => a < b)) (hsub : ∀ p ∈ S, p ∈ l) :
    (S.map (fun p => Int.ofNat (l.indexOf p))).Sorted (fun a b => a < b) := by
  unfold List.Sorted
  rw [List.pairwise_map]
  exact List.Pairwise.imp_of_mem
    (fun {a b} ha hb hab => Int.ofNat_lt.2 (indexOf_lt_indexOf_of_sorted hl (hsub a ha)
      (hsub b hb) hab)) hS

theorem eq_of_sorted_of_mem_iff {l1 l2 : List Int} (h1 : l1.Sorted (fun a b => a < b))
    (h2 : l2.Sorted (fun a b => a < b)) (hmem : ∀ x, x ∈ l1 ↔ x ∈ l2) : l1 = l2 :=
  List.eq_of_perm_of_sorted ((List.perm_ext_iff_of_nodup h1.nodup h2.nodup).2 hmem) h1 h2

theorem prefetched_position_identity_without_variables_aux (variablesEnabled : Bool)
    (cat : NGraphCatalog) (node_name : String)
    (cluster_id graph_id number_of_inputs number_of_outputs : Int) (tm : NGraphTensorManager)
    (h : NGraphTensorManager.create variablesEnabled cat node_name cluster_id graph_id
      number_of_inputs number_of_outputs = Except.ok tm)
    (hfed : tm.m_input_indexes_from_variables = []) :
    tm.m_pipelined_input_indexes_prefetched = tm.m_prefetched_input_indexes := by
  obtain ⟨hall, rfl⟩ := NGraphTensorManager.create_ok_inv h
  simp only [NGraphTensorManager.beforeLocate] at hfed ⊢
  rw [hfed, FindComplement_nil] at hall
  rw [hfed, FindComplement_nil]
  have hid : ∀ p ∈ List.insertionSort (fun a b => a ≤ b)
        (cat.GetIndexesFromPrefetchedInputIndexMap graph_id node_name),
      Int.ofNat ((indexRange number_of_inputs).indexOf p) = id p := fun p hp =>
    ofNat_indexOf_indexRange (hall p ((List.perm_insertionSort _ _).mem_iff.1 hp))
  rw [List.map_congr_left hid, List.map_id]

/-! ## The prefetched positions as indexes of the pipelined tensors -/

/-- C21: after a successful construction the prefetched positions are strictly ascending and
every one of them is at least 0 and below the number of pipelined input indexes.  The
registered prefetch-eligible set is an `unordered_set`, so its enumeration repeats no
member. -/
theorem prefetched_positions_are_valid_indexes (variablesEnabled : Bool) (cat : NGraphCatalog)
    (node_name : String) (cluster_id graph_id number_of_inputs number_of_outputs : Int)
    (tm : NGraphTensorManager)
    (hset : ∀ S, cat.prefetched_input_index_map_ graph_id node_name = some S → S.Nodup)
    (h : NGraphTensorManager.create variablesEnabled cat node_name cluster_id graph_id
      number_of_inputs number_of_outputs = Except.ok tm) :
    tm.m_pipelined_input_indexes_prefetched.Sorted (fun a b => a < b) ∧
    tm.m_pipelined_input_indexes_prefetched.Nodup ∧
    (∀ p ∈ tm.m_pipelined_input_indexes_prefetched,
      0 ≤ p ∧ p < (tm.m_pipelined_input_indexes.length : Int)) ∧
    (∀ p ∈ tm.m_pipelined_input_indexes_prefetched,
      ∃ i, tm.m_pipelined_input_indexes[p.toNat]? = some i ∧
        i ∈ tm.m_prefetched_input_indexes) := by
  obtain ⟨hall, rfl⟩ := NGraphTensorManager.create_ok_inv h
  have hnd : (cat.GetIndexesFromPrefetchedInputIndexMap graph_id node_name).Nodup := by
    unfold NGraphCatalog.GetIndexesFromPrefetchedInputIndexMap
    cases hS : cat.prefetched_input_index_map_ graph_id node_name with
    | none => exact List.nodup_nil
    | some S => exact hset S hS
  have hsub : ∀ p ∈ List.insertionSort (fun a b => a ≤ b)
        (cat.GetIndexesFromPrefetchedInputIndexMap graph_id node_name),
      p ∈ FindComplement number_of_inputs
        (NGraphTensorManager.variableInputs variablesEnabled cat node_name graph_id
          number_of_inputs) :=
    fun p hp => hall p ((List.perm_insertionSort _ _).mem_iff.1 hp)
  have hsorted := sorted_map_indexOf (sorted_FindComplement number_of_inputs
      (NGraphTensorManager.variableInputs variablesEnabled cat node_name graph_id
        number_of_inputs))
    (sorted_lt_insertionSort_of_nodup hnd) hsub
  simp only [NGraphTensorManager.beforeLocate]
  refine ⟨hsorted, hsorted.nodup, ?_, ?_⟩
  · intro p hp
    obtain ⟨q, hq, rfl⟩ := List.mem_map.1 hp
    refine ⟨Int.ofNat_nonneg _, ?_⟩
    exact Int.ofNat_lt.2 (List.indexOf_lt_length.2 (hsub q hq))
  · intro p hp
    obtain ⟨q, hq, rfl⟩ := List.mem_map.1 hp
    exact ⟨q, getElem?_indexOf_of_mem (hsub q hq), hq⟩

/-- Witness of C21 on the test `VariablesAndPrefetch`: the positions `{1, 3}` are ascending
and below the 4 pipelined input indexes `{1, 3, 4, 6}`. -/
theorem prefetched_positions_are_valid_indexes_witness :
    (∀ S, catalogVariablesAndPrefetch.prefetched_input_index_map_ 1 "xyz_1" = some S →
      S.Nodup) ∧
    NGraphTensorManager.create true catalogVariablesAndPrefetch "xyz_1" 1 1 7 4 =
      Except.ok expectedVariablesAndPrefetch ∧
    expectedVariablesAndPrefetch.m_pipelined_input_indexes_prefetched = [1, 3] ∧
    expectedVariablesAndPrefetch.m_pipelined_input_indexes.length = 4 ∧
    (expectedVariablesAndPrefetch.m_pipelined_input_indexes_prefetched.Sorted
        (fun a b => a < b) ∧
      expectedVariablesAndPrefetch.m_pipelined_input_indexes_prefetched.Nodup ∧
      (∀ p ∈ expectedVariablesAndPrefetch.m_pipelined_input_indexes_prefetched,
        0 ≤ p ∧ p < (expectedVariablesAndPrefetch.m_pipelined_input_indexes.length : Int)) ∧
      (∀ p ∈ expectedVariablesAndPrefetch.m_pipelined_input_indexes_prefetched,
        ∃ i, expectedVariablesAndPrefetch.m_pipelined_input_indexes[p.toNat]? = some i ∧
          i ∈ expectedVariablesAndPrefetch.m_prefetched_input_indexes)) :=
  have hset : ∀ S, catalogVariablesAndPrefetch.prefetched_input_index_map_ 1 "xyz_1" =
      some S → S.Nodup := fun S hS => by
    have h36 : catalogVariablesAndPrefetch.prefetched_input_index_map_ 1 "xyz_1" =
        some [3, 6] := rfl
    rw [h36] at hS
    rw [← Option.some.inj hS]
    decide
  ⟨hset, rfl, rfl, rfl,
    prefetched_positions_are_valid_indexes true catalogVariablesAndPrefetch "xyz_1" 1 1 7 4
      expectedVariablesAndPrefetch hset rfl⟩

/-! ## The complement taken twice -/

/-- C22: for every `n >= 0` and every strictly ascending sequence `S` of integers of
`[0, n)`, the complement of the complement of `S` is `S`, and the lengths of `S` and of its
complement add up to `n`; the tests take the inputs fed by variables as
`FindComplement(5, {1, 3, 4})` and `FindComplement(7, {1, 3, 4, 6})`, whose complements are
`{1, 3, 4}` and `{1, 3, 4, 6}` again. -/
theorem FindComplement_involution (n : Int) (S : List Int) (hn : 0 ≤ n)
    (hS : S.Sorted (fun a b => a < b)) (hrange : ∀ x ∈ S, 0 ≤ x ∧ x < n) :
    FindComplement n (FindComplement n S) = S ∧
    (S.length : Int) + ((FindComplement n S).length : Int) = n ∧
    FindComplement 5 (FindComplement 5 [1, 3, 4]) = [1, 3, 4] ∧
    FindComplement 7 (FindComplement 7 [1, 3, 4, 6]) = [1, 3, 4, 6] := by
  have hfilter : S = (indexRange n).filter (fun x => decide (x ∈ S)) := by
    apply eq_of_sorted_of_mem_iff hS ((sorted_indexRange n).filter _)
    intro x
    rw [List.mem_filter, mem_indexRange]
    constructor
    · intro hx
      exact ⟨hrange x hx, by simpa using hx⟩
    · intro hx
      simpa using hx.2
  refine ⟨?_, ?_, by decide, by decide⟩
  · apply eq_of_sorted_of_mem_iff (sorted_FindComplement _ _) hS
    intro x
    rw [mem_FindComplement, mem_FindComplement]
    constructor
    · rintro ⟨hx, hnot⟩
      by_contra hxS
      exact hnot ⟨hx, hxS⟩
    · intro hx
      exact ⟨hrange x hx, fun hc => hc.2 hx⟩
  · have hperm := filter_append_FindComplement_perm n (fun x => decide (x ∈ S))
    rw [← hfilter] at hperm
    have hlen := hperm.length_eq
    rw [List.length_append, length_indexRange] at hlen
    omega

/-- Witness of C22 on the test `VariablesAndPrefetch`: `{1, 3, 4, 6}` within 7 inputs. -/
theorem FindComplement_involution_witness :
    (0 : Int) ≤ 7 ∧
    ([1, 3, 4, 6] : List Int).Sorted (fun a b => a < b) ∧
    (∀ x ∈ ([1, 3, 4, 6] : List Int), 0 ≤ x ∧ x < 7) ∧
    FindComplement 7 [1, 3, 4, 6] = [0, 2, 5] ∧
    FindComplement 7 [0, 2, 5] = [1, 3, 4, 6] ∧
    FindComplement 7 (FindComplement 7 [1, 3, 4, 6]) = [1, 3, 4, 6] :=
  ⟨by decide, by decide, by decide, by decide, by decide,
    (FindComplement_involution 7 [1, 3, 4, 6] (by decide) (by decide) (by decide)).1⟩

/-! ## The build without variables -/

/-- C23: in a build without variables the catalog's variable entries are never consulted.
For every catalog content the pipelined input indexes computed at line 62 are
`0, .., numInputs - 1`, and two catalogs that register the same prefetch-eligible set for the
node give the same result of the construction; a constructed object has no input fed by a
variable, no output assigning a variable, no output needing a copy, the pipelined inputs
`0, .., numInputs - 1`, the pipelined outputs `0, .., numOutputs - 1`, and prefetched
positions equal to the prefetched input indexes. -/
theorem create_without_variables (cat : NGraphCatalog) (node_name : String)
    (cluster_id graph_id number_of_inputs number_of_outputs : Int) :
    NGraphTensorManager.pipelinedInputIndexesOf false cat node_name cluster_id graph_id
        number_of_inputs number_of_outputs =
      (List.range number_of_inputs.toNat).map Int.ofNat ∧
    (∀ cat2 : NGraphCatalog,
      cat2.prefetched_input_index_map_ graph_id node_name =
        cat.prefetched_input_index_map_ graph_id node_name →
      NGraphTensorManager.create false cat2 node_name cluster_id graph_id number_of_inputs
          number_of_outputs =
        NGraphTensorManager.create false cat node_name cluster_id graph_id number_of_inputs
          number_of_outputs) ∧
    (∀ tm : NGraphTensorManager,
      NGraphTensorManager.create false cat node_name cluster_id graph_id number_of_inputs
        number_of_outputs = Except.ok tm →
      tm.m_input_indexes_from_variables = [] ∧
      tm.m_output_indexes_assigning_variable = [] ∧
      tm.m_output_indexes_that_need_copy = [] ∧
      tm.m_pipelined_input_indexes = (List.range number_of_inputs.toNat).map Int.ofNat ∧
      (∀ i, i ∈ tm.m_pipelined_input_indexes ↔ 0 ≤ i ∧ i < number_of_inputs) ∧
      tm.m_pipelined_output_indexes = (List.range number_of_outputs.toNat).map Int.ofNat ∧
      (∀ j, j ∈ tm.m_pipelined_output_indexes ↔ 0 ≤ j ∧ j < number_of_outputs) ∧
      tm.m_pipelined_input_indexes_prefetched = tm.m_prefetched_input_indexes) := by
  refine ⟨?_, ?_, ?_⟩
  · rw [NGraphTensorManager.pipelinedInputIndexesOf_eq]
    simp only [NGraphTensorManager.variableInputs, Bool.false_eq_true, if_false]
    rw [FindComplement_nil]
    rfl
  · intro cat2 hsame
    rw [NGraphTensorManager.create_eq_locatePrefetched,
      NGraphTensorManager.create_eq_locatePrefetched]
    simp only [NGraphTensorManager.beforeLocate, NGraphTensorManager.variableInputs,
      NGraphTensorManager.variableOutputs, NGraphTensorManager.copyOutputs,
      NGraphCatalog.GetIndexesFromPrefetchedInputIndexMap, hsame, Bool.false_eq_true,
      if_false]
  · intro tm h
    have hfed : tm.m_input_indexes_from_variables = [] := by
      obtain ⟨_, rfl⟩ := NGraphTensorManager.create_ok_inv h
      rfl
    have hpos := prefetched_position_identity_without_variables_aux false cat node_name
      cluster_id graph_id number_of_inputs number_of_outputs tm h hfed
    obtain ⟨_, rfl⟩ := NGraphTensorManager.create_ok_inv h
    have hin : FindComplement number_of_inputs
        (NGraphTensorManager.variableInputs false cat node_name graph_id number_of_inputs) =
        indexRange number_of_inputs := FindComplement_nil number_of_inputs
    have hout : FindComplement number_of_outputs
        (NGraphTensorManager.variableOutputs false cat node_name graph_id
          number_of_outputs) = indexRange number_of_outputs :=
      FindComplement_nil number_of_outputs
    refine ⟨rfl, rfl, rfl, hin, fun i => ?_, hout, fun j => ?_, hpos⟩
    · show i ∈ FindComplement number_of_inputs
        (NGraphTensorManager.variableInputs false cat node_name graph_id number_of_inputs) ↔ _
      rw [hin]
      exact mem_indexRange
    · show j ∈ FindComplement number_of_outputs
        (NGraphTensorManager.variableOutputs false cat node_name graph_id
          number_of_outputs) ↔ _
      rw [hout]
      exact mem_indexRange

/-- Witness of C23 on the test `VariablesAndPrefetch` in a build without variables: with 7
inputs and the prefetch-eligible set `{3, 6}` the positions are `{3, 6}`, although the catalog
marks inputs `{0, 2, 5}` as fed by variables. -/
theorem create_without_variables_witness :
    NGraphTensorManager.create false catalogVariablesAndPrefetch "xyz_1" 1 1 7 4 =
      Except.ok expectedVariablesAndPrefetchWithoutVariables ∧
    catalogVariablesAndPrefetch.ExistsInInputVariableSharedNameMap 1 "xyz_1" 0 = true ∧
    expectedVariablesAndPrefetchWithoutVariables.m_prefetched_input_indexes = [3, 6] ∧
    expectedVariablesAndPrefetchWithoutVariables.m_pipelined_input_indexes_prefetched =
      [3, 6] ∧
    (expectedVariablesAndPrefetchWithoutVariables.m_input_indexes_from_variables = [] ∧
      expectedVariablesAndPrefetchWithoutVariables.m_output_indexes_assigning_variable = [] ∧
      expectedVariablesAndPrefetchWithoutVariables.m_output_indexes_that_need_copy = [] ∧
      expectedVariablesAndPrefetchWithoutVariables.m_pipelined_input_indexes =
        (List.range (7 : Int).toNat).map Int.ofNat ∧
      (∀ i, i ∈ expectedVariablesAndPrefetchWithoutVariables.m_pipelined_input_indexes ↔
        0 ≤ i ∧ i < 7) ∧
      expectedVariablesAndPrefetchWithoutVariables.m_pipelined_output_indexes =
        (List.range (4 : Int).toNat).map Int.ofNat ∧
      (∀ j, j ∈ expectedVariablesAndPrefetchWithoutVariables.m_pipelined_output_indexes ↔
        0 ≤ j ∧ j < 4) ∧
      expectedVariablesAndPrefetchWithoutVariables.m_pipelined_input_indexes_prefetched =
        expectedVariablesAndPrefetchWithoutVariables.m_prefetched_input_indexes) :=
  ⟨rfl, by decide, rfl, rfl,
    (create_without_variables catalogVariablesAndPrefetch "xyz_1" 1 1 7 4).2.2
      expectedVariablesAndPrefetchWithoutVariables rfl⟩

end NgraphBridge
